import Mathlib

/-!
Verification development for the API-free local platform-detection pipeline
(`shoptech_eval`): URL normalisation, HTML fingerprinting, endpoint-probe
response classification, DNS CNAME probing, link discovery and the
`detect_platform_local` cascade, embedded as pure Lean functions over the
network outcomes, together with theorems about the spec claims.

Python string/bytes handling is modelled on decoded text; character-class
operations (`str.lower`, `str.strip`, whitespace, `\w`) are modelled on the
ASCII range, which is the range the fingerprint markers and URL syntax use.
-/

set_option maxHeartbeats 4000000
set_option maxRecDepth 8000

namespace Shoptech

/-- ASCII lower-casing of a single character (Python `str.lower` on ASCII). -/
def lowerChar (c : Char) : Char :=
  if 'A' ≤ c ∧ c ≤ 'Z' then Char.ofNat (c.toNat + 32) else c

/-- Python `str.lower` (ASCII range). -/
def pyLower (s : String) : String := ⟨s.data.map lowerChar⟩

/-- Python `str.strip()` whitespace set (ASCII range). -/
def isPySpace (c : Char) : Bool :=
  c == ' ' || c == '\t' || c == '\n' || c == '\r' || c == '\x0b' || c == '\x0c'

/-- Drop matching characters from the end of a list. -/
def dropTrail (p : Char → Bool) (l : List Char) : List Char :=
  (l.reverse.dropWhile p).reverse

/-- Strip matching characters from both ends (Python `str.strip`). -/
def stripList (p : Char → Bool) (l : List Char) : List Char :=
  dropTrail p (l.dropWhile p)

/-- Python `s.strip()`. -/
def pyStrip (s : String) : String := ⟨stripList isPySpace s.data⟩

/-- Python `s.strip(".")`. -/
def stripDots (s : String) : String := ⟨stripList (fun c => c == '.') s.data⟩

/-- Python `s.rstrip(".")`. -/
def rstripDots (s : String) : String := ⟨dropTrail (fun c => c == '.') s.data⟩

/-- List-prefix test (Python `str.startswith`). -/
def isPre : List Char → List Char → Bool
  | [], _ => true
  | _ :: _, [] => false
  | a :: as, b :: bs => a == b && isPre as bs

/-- Case-insensitive list-prefix test (for `re.I` literals). -/
def isPreCI : List Char → List Char → Bool
  | [], _ => true
  | _ :: _, [] => false
  | a :: as, b :: bs => lowerChar a == lowerChar b && isPreCI as bs

/-- Substring occurrence test (Python `needle in hay`), needle first. -/
def subIn (n : List Char) : List Char → Bool
  | [] => isPre n []
  | c :: rest => isPre n (c :: rest) || subIn n rest

/-- Python `needle in hay` on strings. -/
def inStr (needle hay : String) : Bool := subIn needle.data hay.data

/-- Python `s.startswith(pre)`. -/
def startsWithStr (pre s : String) : Bool := isPre pre.data s.data

/-- Python `a or b` on strings (take `b` when `a` is empty). -/
def orElseStr (a b : String) : String := if a = "" then b else a

/-- Count non-overlapping occurrences (Python `hay.count(needle)`), fuelled. -/
def countSubAux (n : List Char) : Nat → List Char → Nat
  | 0, _ => 0
  | _ + 1, [] => 0
  | fuel + 1, c :: rest =>
    if isPre n (c :: rest) then 1 + countSubAux n fuel ((c :: rest).drop n.length)
    else countSubAux n fuel rest

/-- Python `hay.count(needle)` for a non-empty needle. -/
def countSub (needle hay : String) : Nat :=
  countSubAux needle.data (hay.data.length + 1) hay.data

/-- One step of `re.sub(r"<[^>]+>", " ", s)`: deterministic because the
greedy class excludes the closing `>`. Fuelled scan. -/
def stripTagsAux : Nat → List Char → List Char
  | 0, l => l
  | _ + 1, [] => []
  | fuel + 1, c :: rest =>
    if c == '<' then
      match rest.takeWhile (fun d => !(d == '>')),
            rest.drop (rest.takeWhile (fun d => !(d == '>'))).length with
      | _ :: _, _ :: after => ' ' :: stripTagsAux fuel after
      | _, _ => c :: stripTagsAux fuel rest
    else c :: stripTagsAux fuel rest

/-- Python `re.sub(r"<[^>]+>", " ", s)`. -/
def stripTags (s : String) : String := ⟨stripTagsAux (s.data.length + 1) s.data⟩

/-- Python `str.splitlines` (ASCII line boundaries), without a trailing
empty line. -/
def splitLinesAux : List Char → List Char → List (List Char)
  | acc, [] => if acc.isEmpty then [] else [ acc.reverse ]
  | acc, '\r' :: '\n' :: rest => acc.reverse :: splitLinesAux [] rest
  | acc, '\r' :: rest => acc.reverse :: splitLinesAux [] rest
  | acc, '\n' :: rest => acc.reverse :: splitLinesAux [] rest
  | acc, c :: rest => splitLinesAux (c :: acc) rest

/-- Python `s.splitlines()`. -/
def splitLines (s : String) : List String := (splitLinesAux [] s.data).map (⟨·⟩)

/-- Python `s.split(sep)` for a single-character separator. -/
def splitOnCharL (sep : Char) : List Char → List (List Char)
  | [] => [ [] ]
  | c :: rest =>
    match splitOnCharL sep rest with
    | [] => [ [] ]
    | g :: gs => if c == sep then [] :: g :: gs else (c :: g) :: gs

/-- Python `sep.join(parts)`. -/
def joinWith (sep : String) : List String → String
  | [] => ""
  | [ x ] => x
  | x :: y :: rest => x ++ sep ++ joinWith sep (y :: rest)

/-- Index of the last occurrence of a character (Python `str.rfind`). -/
def rfindCharAux (ch : Char) : List Char → Nat → Option Nat → Option Nat
  | [], _, best => best
  | c :: rest, i, best => rfindCharAux ch rest (i + 1) (if c == ch then some i else best)

/-- First index `≥ start` of a character (Python `str.find(ch, start)`). -/
def findCharFromAux (ch : Char) : List Char → Nat → Nat → Option Nat
  | [], _, _ => none
  | c :: rest, i, start =>
    if start ≤ i ∧ c == ch then some i else findCharFromAux ch rest (i + 1) start

/-- Normalise a free-form URL string: strip, and default the scheme to
`https` (source `_normalize_url`, identical in `local_detector.py`,
`fingerprinting.py` and `local_detect.py`). -/
def normalize_url (url : String) : String :=
  if pyStrip url = "" then ""
  else if startsWithStr "http://" (pyLower (pyStrip url))
       || startsWithStr "https://" (pyLower (pyStrip url)) then pyStrip url
  else "https://" ++ pyStrip url

/-! ### JSON values and `json.loads` (shape-level model of Python's parser) -/

/-- JSON value. Numbers keep their lexeme (their numeric value is never
inspected by the probes). -/
inductive Json where
  | jnull : Json
  | jbool (b : Bool) : Json
  | jnum (lex : String) : Json
  | jstr (s : String) : Json
  | jarr (xs : List Json) : Json
  | jobj (kvs : List (String × Json)) : Json

/-- JSON whitespace skipping. -/
def skipJsonWs (l : List Char) : List Char :=
  l.dropWhile (fun c => c == ' ' || c == '\t' || c == '\n' || c == '\r')

/-- Hexadecimal digit value. -/
def hexVal (c : Char) : Option Nat :=
  if c.isDigit then some (c.toNat - '0'.toNat)
  else if 'a' ≤ c ∧ c ≤ 'f' then some (c.toNat - 'a'.toNat + 10)
  else if 'A' ≤ c ∧ c ≤ 'F' then some (c.toNat - 'A'.toNat + 10)
  else none

/-- JSON string-body scanner (after the opening quote), with the standard
escapes; surrogate pairs and the control-character strictness check are not
modelled. -/
def parseStrAux : Nat → List Char → List Char → Option (String × List Char)
  | 0, _, _ => none
  | _ + 1, _, [] => none
  | fuel + 1, acc, c :: rest =>
    if c == '"' then some (⟨acc.reverse⟩, rest)
    else if c == '\\' then
      match rest with
      | [] => none
      | e :: rest2 =>
        if e == '"' then parseStrAux fuel ('"' :: acc) rest2
        else if e == '\\' then parseStrAux fuel ('\\' :: acc) rest2
        else if e == '/' then parseStrAux fuel ('/' :: acc) rest2
        else if e == 'b' then parseStrAux fuel ('\x08' :: acc) rest2
        else if e == 'f' then parseStrAux fuel ('\x0c' :: acc) rest2
        else if e == 'n' then parseStrAux fuel ('\n' :: acc) rest2
        else if e == 'r' then parseStrAux fuel ('\r' :: acc) rest2
        else if e == 't' then parseStrAux fuel ('\t' :: acc) rest2
        else if e == 'u' then
          match rest2 with
          | h1 :: h2 :: h3 :: h4 :: rest3 =>
            match hexVal h1, hexVal h2, hexVal h3, hexVal h4 with
            | some a, some b, some c2, some d =>
              parseStrAux fuel (Char.ofNat (((a * 16 + b) * 16 + c2) * 16 + d) :: acc) rest3
            | _, _, _, _ => none
          | _ => none
        else none
    else parseStrAux fuel (c :: acc) rest

/-- Digit span. -/
def digitSpan (l : List Char) : List Char × List Char :=
  (l.takeWhile Char.isDigit, l.dropWhile Char.isDigit)

/-- Exponent tail after `e`/`E` (optional sign, then at least one digit). -/
def expTail : List Char → Option (List Char × List Char)
  | [] => none
  | s :: rest =>
    if s == '+' || s == '-' then
      match digitSpan rest with
      | ([], _) => none
      | (ds, rr) => some (s :: ds, rr)
    else
      match digitSpan (s :: rest) with
      | ([], _) => none
      | (ds, rr) => some (ds, rr)

/-- Fraction and exponent parts after the integer part of a JSON number
(Python `NUMBER_RE`); unmatched parts are left unconsumed. -/
def afterInt (ip : List Char) (r : List Char) : String × List Char :=
  let fr :=
    match r with
    | '.' :: rest =>
      match digitSpan rest with
      | ([], _) => (([] : List Char), r)
      | (ds, rr) => ('.' :: ds, rr)
    | _ => ([], r)
  let ex :=
    match fr.2 with
    | e :: rest =>
      if e == 'e' || e == 'E' then
        match expTail rest with
        | some (tail, rr) => (e :: tail, rr)
        | none => (([] : List Char), fr.2)
      else ([], fr.2)
    | [] => ([], fr.2)
  (⟨ip ++ fr.1 ++ ex.1⟩, ex.2)

/-- JSON number at the current position (`-?(0|[1-9]\d*)(\.\d+)?([eE][+-]?\d+)?`). -/
def parseNum (l : List Char) : Option (String × List Char) :=
  let (neg, l1) := match l with
    | '-' :: r => ((['-'] : List Char), r)
    | _ => (([] : List Char), l)
  match l1 with
  | [] => none
  | '0' :: r => some (afterInt (neg ++ ['0']) r)
  | c :: r =>
    if c.isDigit then
      match digitSpan r with
      | (ds, r2) => some (afterInt (neg ++ c :: ds) r2)
    else none

mutual

/-- JSON value at the current position (whitespace already skipped). -/
def parseVal : Nat → List Char → Option (Json × List Char)
  | 0, _ => none
  | fuel + 1, l =>
    match l with
    | [] => none
    | c :: rest =>
      if c == 'n' then (if isPre "ull".data rest then some (.jnull, rest.drop 3) else none)
      else if c == 't' then (if isPre "rue".data rest then some (.jbool true, rest.drop 3) else none)
      else if c == 'f' then (if isPre "alse".data rest then some (.jbool false, rest.drop 4) else none)
      else if c == 'N' then (if isPre "aN".data rest then some (.jnum "NaN", rest.drop 2) else none)
      else if c == 'I' then (if isPre "nfinity".data rest then some (.jnum "Infinity", rest.drop 7) else none)
      else if c == '-' && isPre "Infinity".data rest then some (.jnum "-Infinity", rest.drop 8)
      else if c == '"' then
        match parseStrAux fuel [] rest with
        | some (s, r) => some (.jstr s, r)
        | none => none
      else if c == '[' then
        match skipJsonWs rest with
        | ']' :: r => some (.jarr [], r)
        | l1 => parseArrItems fuel l1 []
      else if c == '\x7b' then
        match skipJsonWs rest with
        | '\x7d' :: r => some (.jobj [], r)
        | l1 => parseObjItems fuel l1 []
      else
        match parseNum l with
        | some (lex, r) => some (.jnum lex, r)
        | none => none

/-- Array items (after `[` and leading whitespace). -/
def parseArrItems : Nat → List Char → List Json → Option (Json × List Char)
  | 0, _, _ => none
  | fuel + 1, l, acc =>
    match parseVal fuel l with
    | some (v, r) =>
      match skipJsonWs r with
      | ',' :: r2 => parseArrItems fuel (skipJsonWs r2) (v :: acc)
      | ']' :: r2 => some (.jarr (v :: acc).reverse, r2)
      | _ => none
    | none => none

/-- Object members (after `{` and leading whitespace). -/
def parseObjItems : Nat → List Char → List (String × Json) → Option (Json × List Char)
  | 0, _, _ => none
  | fuel + 1, l, acc =>
    match l with
    | '"' :: rest =>
      match parseStrAux fuel [] rest with
      | some (k, r1) =>
        match skipJsonWs r1 with
        | ':' :: r2 =>
          match parseVal fuel (skipJsonWs r2) with
          | some (v, r3) =>
            match skipJsonWs r3 with
            | ',' :: r4 => parseObjItems fuel (skipJsonWs r4) ((k, v) :: acc)
            | '\x7d' :: r4 => some (.jobj ((k, v) :: acc).reverse, r4)
            | _ => none
          | none => none
        | _ => none
      | none => none
    | _ => none

end

/-- Python `json.loads`: parse one value with surrounding whitespace; any
trailing data is an error. -/
def jsonLoads (s : String) : Option Json :=
  match parseVal (2 * s.data.length + 8) (skipJsonWs s.data) with
  | some (v, rest) => if (skipJsonWs rest).isEmpty then some v else none
  | none => none

/-- Key membership in a parsed JSON object (Python `"k" in obj`). -/
def jsonObjHasKey (kvs : List (String × Json)) (k : String) : Bool :=
  kvs.any (fun kv => kv.1 == k)

/-- Lookup in a parsed JSON object (Python `obj.get(k)`); with duplicate
keys the last occurrence wins, as in `dict`. -/
def jsonObjGet (kvs : List (String × Json)) (k : String) : Option Json :=
  match kvs.reverse.find? (fun kv => kv.1 == k) with
  | some kv => some kv.2
  | none => none

/-! ### The concrete regular expressions used by the source, as
deterministic or backtracking matchers -/

/-- Apostrophe character. -/
def apos : Char := Char.ofNat 39

/-- The `["']` character class. -/
def quoteChars : List Char := ['"', apos]

/-- Match a literal, then continue. -/
def matchLit (lit : List Char) (k : List Char → Bool) (l : List Char) : Bool :=
  if isPre lit l then k (l.drop lit.length) else false

/-- Match exactly one character from a class, then continue. -/
def matchOneOf (good : List Char) (k : List Char → Bool) : List Char → Bool
  | [] => false
  | c :: rest => good.contains c && k rest

/-- Match one-or-more characters outside a class (with backtracking), then
continue. -/
def matchClass1 (bad : List Char) (k : List Char → Bool) : List Char → Bool
  | [] => false
  | c :: rest => !bad.contains c && (k rest || matchClass1 bad k rest)

/-- Match zero-or-more characters outside a class (with backtracking), then
continue. -/
def matchClass0 (bad : List Char) (k : List Char → Bool) : List Char → Bool
  | [] => k []
  | c :: rest => k (c :: rest) || (!bad.contains c && matchClass0 bad k rest)

/-- The fingerprinting regex
`<meta[^>]+name=["']generator["'][^>]+content=["'][^"']*shopware`
anchored at the current position. -/
def metaGenAt : List Char → Bool :=
  matchLit "<meta".data
  (matchClass1 ['>']
  (matchLit "name=".data
  (matchOneOf quoteChars
  (matchLit "generator".data
  (matchOneOf quoteChars
  (matchClass1 ['>']
  (matchLit "content=".data
  (matchOneOf quoteChars
  (matchClass0 quoteChars
  (matchLit "shopware".data (fun _ => true)))))))))))

/-- `re.search` of the generator-meta pattern. -/
def metaGenSearch : List Char → Bool
  | [] => metaGenAt []
  | c :: rest => metaGenAt (c :: rest) || metaGenSearch rest

/-- Python `\w` (ASCII range). -/
def isWordChar (c : Char) : Bool := c.isAlphanum || c == '_'

/-- Is the previous character a word boundary partner? -/
def boundaryOk : Option Char → Bool
  | none => true
  | some p => !isWordChar p

/-- The alternation `(cart|checkout|warenkorb|kasse)` with a trailing `\b`,
anchored at the current position. -/
def wordAltAt (l : List Char) : Bool :=
  [ "cart".data, "checkout".data, "warenkorb".data, "kasse".data ].any fun w =>
    isPre w l && (match l.drop w.length with
                  | [] => true
                  | c :: _ => !isWordChar c)

/-- `re.search(r"\b(cart|checkout|warenkorb|kasse)\b", s)` as a boolean. -/
def cartWordSearch : Option Char → List Char → Bool
  | _, [] => false
  | prev, c :: rest => (boundaryOk prev && wordAltAt (c :: rest)) || cartWordSearch (some c) rest

/-- The link regex `href\s*=\s*["']([^"']+)["']` (with `re.I`) anchored at
the current position: deterministic because the greedy classes exclude
their terminators. Returns the capture and the rest of the input. -/
def hrefMatchAt (l : List Char) : Option (List Char × List Char) :=
  if isPreCI "href".data l then
    match (l.drop 4).dropWhile isPySpace with
    | '=' :: l2 =>
      match l2.dropWhile isPySpace with
      | q :: l4 =>
        if quoteChars.contains q then
          match l4.takeWhile (fun c => !quoteChars.contains c),
                l4.drop (l4.takeWhile (fun c => !quoteChars.contains c)).length with
          | cap@(_ :: _), q2 :: l6 =>
            if quoteChars.contains q2 then some (cap, l6) else none
          | _, _ => none
        else none
      | [] => none
    | _ => none
  else none

/-- `re.findall` scan for the link regex: leftmost, non-overlapping. -/
def hrefFindallAux : Nat → List Char → List (List Char)
  | 0, _ => []
  | _ + 1, [] => []
  | fuel + 1, c :: rest =>
    match hrefMatchAt (c :: rest) with
    | some (cap, after) => cap :: hrefFindallAux fuel after
    | none => hrefFindallAux fuel rest

/-- `re.findall(r"href\s*=\s*[\x22\x27]([^\x22\x27]+)[\x22\x27]", html, re.I)`. -/
def pyFindallHref (s : String) : List String :=
  (hrefFindallAux (s.data.length + 1) s.data).map (⟨·⟩)

/-- Matched text (with the optional trailing dot) for the Shopify CNAME
regex, given the length of the matched alternative. -/
def takeWithOptDot (l : List Char) (n : Nat) : List Char :=
  match l.drop n with
  | '.' :: _ => l.take n ++ ['.']
  | _ => l.take n

/-- `(myshopify\.com|shops\.myshopify\.com)\.?` (with `re.I`) anchored at
the current position, returning the matched text. -/
def cnameMatchAt (l : List Char) : Option (List Char) :=
  if isPreCI "myshopify.com".data l then some (takeWithOptDot l 13)
  else if isPreCI "shops.myshopify.com".data l then some (takeWithOptDot l 19)
  else none

/-- `re.search` of the Shopify CNAME pattern. -/
def cnameSearch : List Char → Option (List Char)
  | [] => none
  | c :: rest =>
    match cnameMatchAt (c :: rest) with
    | some m => some m
    | none => cnameSearch rest

/-! ### `urllib.parse`: the parsing/joining subset the source uses -/

/-- Components of `urllib.parse.urlparse`. -/
structure UrlParts where
  scheme : String
  netloc : String
  path : String
  params : String
  query : String
  fragment : String
deriving DecidableEq, Repr

/-- Characters `urlsplit` removes anywhere in the URL. -/
def removeUnsafe (l : List Char) : List Char :=
  l.filter (fun c => !(c == '\t' || c == '\r' || c == '\n'))

/-- Characters allowed in a URL scheme after the first letter. -/
def schemeChar (c : Char) : Bool :=
  c.isAlpha || c.isDigit || c == '+' || c == '-' || c == '.'

/-- Split off `scheme:` when present (first char a letter, rest scheme
characters); otherwise use the caller's default scheme. -/
def splitScheme (l : List Char) (dflt : String) : String × List Char :=
  match List.findIdx? (fun c => c == ':') l with
  | some i =>
    if (decide (0 < i) && (match l.head? with | some c => c.isAlpha | none => false)
        && (l.take i).all schemeChar) = true then
      (pyLower ⟨l.take i⟩, l.drop (i + 1))
    else (dflt, l)
  | none => (dflt, l)

/-- Netloc span: up to the first `/`, `?` or `#`. -/
def netlocSpan (l : List Char) : List Char × List Char :=
  (l.takeWhile (fun c => !(c == '/' || c == '?' || c == '#')),
   l.dropWhile (fun c => !(c == '/' || c == '?' || c == '#')))

/-- Split at the first occurrence of a character, dropping it; identity on
the right part when absent. -/
def splitOnceChar (ch : Char) (l : List Char) : List Char × List Char :=
  if l.contains ch then
    (l.takeWhile (fun c => !(c == ch)), (l.dropWhile (fun c => !(c == ch))).drop 1)
  else (l, [])

/-- `urllib.parse.urlsplit` (allow_fragments=True; IPv6-bracket validity
checks not modelled). -/
def urlsplitPy (url : String) (dflt : String) : UrlParts :=
  let l := removeUnsafe url.data
  let sl := splitScheme l dflt
  let nl := if isPre "//".data sl.2 then netlocSpan (sl.2.drop 2) else ([], sl.2)
  let fx := splitOnceChar '#' nl.2
  let qx := splitOnceChar '?' fx.1
  ⟨sl.1, ⟨nl.1⟩, ⟨qx.1⟩, "", ⟨qx.2⟩, ⟨fx.2⟩⟩

/-- `_splitparams`: split `;params` out of the last path segment. -/
def splitparams (path : List Char) : List Char × List Char :=
  let iOpt :=
    if path.contains '/' then
      match rfindCharAux '/' path 0 none with
      | some j => findCharFromAux ';' path 0 j
      | none => none
    else findCharFromAux ';' path 0 0
  match iOpt with
  | none => (path, [])
  | some i => (path.take i, path.drop (i + 1))

/-- `urllib.parse.urlparse`. -/
def urlparsePy (url : String) (dflt : String) : UrlParts :=
  let sp := urlsplitPy url dflt
  if sp.path.data.contains ';' then
    let pp := splitparams sp.path.data
    { sp with path := ⟨pp.1⟩, params := ⟨pp.2⟩ }
  else sp

/-- `urllib.parse.urlunsplit`. -/
def urlunsplitPy (scheme netloc path query fragment : String) : String :=
  let url1 :=
    if netloc ≠ "" ∨ (path ≠ "" ∧ isPre "//".data path.data) then
      (if path ≠ "" ∧ ¬ isPre "/".data path.data then "//" ++ netloc ++ "/" ++ path
       else "//" ++ netloc ++ path)
    else path
  let url2 := if scheme ≠ "" then scheme ++ ":" ++ url1 else url1
  let url3 := if query ≠ "" then url2 ++ "?" ++ query else url2
  if fragment ≠ "" then url3 ++ "#" ++ fragment else url3

/-- `urllib.parse.urlunparse`. -/
def urlunparsePy (scheme netloc path params query fragment : String) : String :=
  let p := if params ≠ "" then path ++ ";" ++ params else path
  urlunsplitPy scheme netloc p query fragment

/-- Schemes that support relative resolution (`uses_relative`). -/
def usesRelative : List String :=
  [ "", "ftp", "http", "gopher", "nntp", "imap", "wais", "file", "https", "shttp",
    "mms", "prospero", "rtsp", "rtspu", "sftp", "svn", "svn+ssh", "ws", "wss" ]

/-- Schemes that use a network location (`uses_netloc`). -/
def usesNetloc : List String :=
  [ "", "ftp", "http", "gopher", "nntp", "telnet", "imap", "wais", "file", "mms",
    "https", "shttp", "snews", "prospero", "rtsp", "rtspu", "rsync", "svn",
    "svn+ssh", "sftp", "nfs", "git", "git+ssh", "ws", "wss" ]

/-- Keep the first and last element, filter empty strings from the middle
(`segments[1:-1] = filter(None, segments[1:-1])`). -/
def filterMid : List String → List String
  | [] => []
  | [ x ] => [ x ]
  | x :: rest =>
    match rest.getLast? with
    | some last => x :: (rest.dropLast.filter (fun s => s ≠ "")) ++ [ last ]
    | none => [ x ]

/-- Dot-segment resolution loop of `urljoin`. -/
def segLoop (acc : List String) : List String → List String
  | [] => acc
  | seg :: rest =>
    if seg = ".." then segLoop acc.dropLast rest
    else if seg = "." then segLoop acc rest
    else segLoop (acc ++ [ seg ]) rest

/-- `urllib.parse.urljoin`. -/
def urljoin (base url : String) : String :=
  if base = "" then url
  else if url = "" then base
  else
    let b := urlparsePy base ""
    let u := urlparsePy url b.scheme
    if u.scheme ≠ b.scheme ∨ ¬ usesRelative.contains u.scheme then url
    else if usesNetloc.contains u.scheme ∧ u.netloc ≠ "" then
      urlunparsePy u.scheme u.netloc u.path u.params u.query u.fragment
    else
      let netloc := if usesNetloc.contains u.scheme then b.netloc else u.netloc
      if u.path = "" ∧ u.params = "" then
        let query := if u.query = "" then b.query else u.query
        urlunparsePy u.scheme netloc b.path b.params query u.fragment
      else
        let base_parts0 := (splitOnCharL '/' b.path.data).map (fun g => (⟨g⟩ : String))
        let base_parts := if base_parts0.getLast? ≠ some "" then base_parts0.dropLast else base_parts0
        let segments :=
          if isPre "/".data u.path.data then
            (splitOnCharL '/' u.path.data).map (fun g => (⟨g⟩ : String))
          else
            filterMid (base_parts ++ (splitOnCharL '/' u.path.data).map (fun g => (⟨g⟩ : String)))
        let resolved0 := segLoop [] segments
        let resolved :=
          if segments.getLast? = some ".." ∨ segments.getLast? = some "." then resolved0 ++ [ "" ]
          else resolved0
        let rp := joinWith "/" resolved
        urlunparsePy u.scheme netloc (if rp = "" then "/" else rp) u.params u.query u.fragment

/-- `urlparse(...).hostname or ""`: strip userinfo and port from the
netloc and lower-case (bracketed IPv6 hosts keep the text between the
brackets). -/
def hostnameOf (url : String) : String :=
  let netloc := (urlsplitPy url "").netloc.data
  let hostinfo := match rfindCharAux '@' netloc 0 none with
    | some i => netloc.drop (i + 1)
    | none => netloc
  let hostname :=
    if hostinfo.contains '[' then
      ((splitOnceChar '[' hostinfo).2.takeWhile (fun c => !(c == ']')))
    else hostinfo.takeWhile (fun c => !(c == ':'))
  pyLower ⟨hostname⟩

/-- Source `_host_from_url` (`local_detector.py`) and `_hostname_from_url`
(`local_detect.py`): hostname of the normalised URL, stripped and
lower-cased. -/
def host_from_url (url : String) : String :=
  pyLower (pyStrip (hostnameOf (normalize_url url)))

/-- Source `_origin_from_url`: `scheme://netloc` of the normalised URL, or
empty when either part is missing. -/
def origin_from_url (url : String) : String :=
  let u := normalize_url url
  let pu := urlparsePy u ""
  if pu.scheme = "" ∨ pu.netloc = "" then ""
  else pu.scheme ++ "://" ++ pu.netloc

/-- Source `_registered_domain` (`local_detect.py`): naive last-two-labels
registrable domain. -/
def registered_domain (host : String) : String :=
  let h := rstripDots (pyLower (pyStrip host))
  let parts := ((splitOnCharL '.' h.data).map (fun g => (⟨g⟩ : String))).filter (fun p => p ≠ "")
  if parts.length ≤ 2 then h else joinWith "." (parts.drop (parts.length - 2))

/-- Source `_same_reg_domain` (`local_detect.py`). -/
def same_reg_domain (a_host b_host : String) : Bool :=
  let ra := registered_domain a_host
  let rb := registered_domain b_host
  ra ≠ "" && ra == rb

/-- The shop-vocabulary keys of `_extract_shop_links` (`local_detector.py`). -/
def shopLinkKeys : List String :=
  [ "shop", "store", "webshop", "onlineshop", "online-shop",
    "warenkorb", "cart", "checkout", "kasse",
    "produkt", "produkte", "product", "products", "kaufen", "bestellen",
    "tickets", "voucher", "gutschein" ]

/-- Accumulation loop of `_extract_shop_links`: resolve matching hrefs,
dedupe, stop at the limit. -/
def extractLinksLoop (base_url : String) (limit : Nat) : List String → List String → List String
  | [], out => out
  | href :: rest, out =>
    let low := pyLower href
    let out1 :=
      if shopLinkKeys.any (fun k => inStr k low) then
        let u := urljoin base_url href
        if out.contains u then out else out ++ [ u ]
      else out
    if max 1 limit ≤ out1.length then out1 else extractLinksLoop base_url limit rest out1

/-- Source `_extract_shop_links` (`local_detector.py`): hrefs containing
shop vocabulary, resolved against the base URL. No same-domain filter is
applied. -/
def extract_shop_links (base_url html : String) (limit : Nat := 15) : List String :=
  if html = "" then []
  else extractLinksLoop base_url limit (pyFindallHref html) []

/-- Order-preserving dedup (Python `list(dict.fromkeys(...))`). -/
def dedupKeepFirst : List String → List String
  | [] => []
  | x :: rest =>
    let r := dedupKeepFirst rest
    if r.contains x then x :: r.filter (fun y => y ≠ x) else x :: r

/-- Source `_subdomain_candidates` (`local_detector.py`). -/
def subdomain_candidates (host : String) : List String :=
  let h := stripDots (pyLower (pyStrip host))
  if h = "" then []
  else
    let base := if startsWithStr "www." h then (⟨h.data.drop 4⟩ : String) else h
    dedupKeepFirst [ "shop." ++ base, "store." ++ base, "webshop." ++ base ]

/-- The candidate-link filter of `local_detect.local_detect` (lines
179-184): a link is skipped exactly when the input host and the link host
are both non-empty and their registrable domains differ. -/
def local_detect_kept_links (host : String) (links : List String) : List String :=
  links.filter fun link =>
    let link_host := host_from_url link
    !(host ≠ "" && link_host ≠ "" && !(same_reg_domain host link_host))

/-! ### HTML fingerprint classifier (`fingerprinting.py`) -/

/-- Result of one fingerprint probe (source `FingerprintResult`). -/
structure FingerprintResult where
  platform : String
  confidence : String
  signals : List String
  shop_presence_hint : String
  final_url : String
  status : Option Int
  error : String
deriving DecidableEq, Repr

/-- Shop-presence mode normalisation (`(mode or "installed").strip().lower()`
with fallback to `installed`). -/
def normMode (m : String) : String :=
  let base := if m = "" then "installed" else m
  let md := pyLower (pyStrip base)
  if md = "installed" ∨ md = "functional" then md else "installed"

/-- Strong transactional markers scanned by the classifier. -/
def strongMarkerList : List String :=
  [ "?add-to-cart=", "add_to_cart_button", "data-product_id" ]

/-- Weak cart/checkout markers scanned by the classifier. -/
def weakMarkerList : List String :=
  [ "/cart", "/checkout", "warenkorb", "kasse", "checkout",
    "woocommerce-cart", "woocommerce-checkout", "wc-cart-fragments" ]

/-- Shopify markers. -/
def shopifyMarkerList : List String :=
  [ "cdn.shopify.com", "myshopify.com", "shopify-section", "shopify.theme", "shopifyanalytics" ]

/-- WooCommerce markers. -/
def wcMarkerList : List String :=
  [ "wp-content/plugins/woocommerce", "woocommerce_params", "wc-cart-fragments",
    "woocommerce_items_in_cart" ]

/-- Shopware 5 / legacy markers (first match wins). -/
def shopware5MarkerList : List String :=
  [ "shopware.php", "/themes/frontend", "jquery.shopware", "/engine/shopware", "shopware.apps" ]

/-- Magento markers (first match wins; the duplicate entry is kept as in
the source). -/
def magentoMarkerList : List String :=
  [ "magento_", "form_key", "/static/frontend/", "/rest/v1/", "/rest/v1/" ]

/-- WordPress markers counted for the generic fallback. -/
def wpMarkerList : List String :=
  [ "wp-content/", "wp-includes/", "wp-json/" ]

/-- Core of `fingerprint_platform_from_html`, operating on the already
lower-cased HTML (the source's local variable `html`). -/
def fp_from_html_core (html finalUrl : String) (status : Option Int) (error : String)
    (mode : String) : FingerprintResult :=
  let strong0 := strongMarkerList.filter (fun s => inStr s html)
  let jsonld := inStr "\"@type\":\"product\"" html || inStr "\"@type\": \"product\"" html
  let strong_hits := strong0 ++ (if jsonld then [ "jsonld_product" ] else [])
  let sig0 : List String := if jsonld then [ "hint:jsonld_product" ] else []
  let weak_hits := weakMarkerList.filter (fun s => inStr s html)
  let shop_hint :=
    if mode = "functional" then
      (if strong_hits ≠ [] then "shop" else if weak_hits = [] then "not_shop" else "unclear")
    else
      (if strong_hits ≠ [] ∨ 2 ≤ weak_hits.length then "shop"
       else if weak_hits = [] then "not_shop" else "unclear")
  let sig1 := sig0 ++ (if shop_hint = "shop" ∧ strong_hits = [] ∧ weak_hits ≠ [] then
                         [ "hint:shop_presence_weak_only" ] else [])
  let shopifyMarks := shopifyMarkerList.filter (fun s => inStr s html)
  let sig2 := sig1 ++ shopifyMarks.map (fun s => "shopify:" ++ s)
  if 1 ≤ shopifyMarks.length then ⟨ "shopify", "high", sig2, shop_hint, finalUrl, status, error ⟩
  else
  let wcMarks := wcMarkerList.filter (fun s => inStr s html)
  let sig3 := sig2 ++ wcMarks.map (fun s => "woocommerce:" ++ s)
  if 1 ≤ wcMarks.length ∧ shop_hint = "shop" then
    ⟨ "woocommerce", "high", sig3, shop_hint, finalUrl, status, error ⟩
  else
  let sig4 := sig3 ++ (if 1 ≤ wcMarks.length ∧ shop_hint ≠ "shop" then
                         [ "hint:woocommerce_assets_without_shop_signals" ] else [])
  if inStr "/bundles/storefront" html then
    ⟨ "shopware", "high", sig4 ++ [ "shopware:/bundles/storefront" ], shop_hint, finalUrl, status, error ⟩
  else if inStr "data-plugin-version=\"shopware" html || inStr "data-plugin-version=\x27shopware" html then
    ⟨ "shopware", "high", sig4 ++ [ "shopware:data-plugin-version" ], shop_hint, finalUrl, status, error ⟩
  else if inStr "window.shopware" html then
    ⟨ "shopware", "high", sig4 ++ [ "shopware:window.shopware" ], shop_hint, finalUrl, status, error ⟩
  else if metaGenSearch html.data then
    ⟨ "shopware", "high", sig4 ++ [ "shopware:meta_generator" ], shop_hint, finalUrl, status, error ⟩
  else
  match shopware5MarkerList.find? (fun s => inStr s html) with
  | some s => ⟨ "shopware", "high", sig4 ++ [ "shopware:" ++ s ], shop_hint, finalUrl, status, error ⟩
  | none =>
  let sig5 := sig4 ++ (if inStr "/widgets/" html then [ "shopware:widgets_path" ] else [])
                   ++ (if inStr "shopware" html then [ "shopware:shopware_word" ] else [])
  match magentoMarkerList.find? (fun s => inStr s html) with
  | some s => ⟨ "magento", "high", sig5 ++ [ "magento:" ++ s ], shop_hint, finalUrl, status, error ⟩
  | none =>
  if 2 ≤ (wpMarkerList.filter (fun s => inStr s html)).length then
    ⟨ "other", "medium", sig5 ++ [ "wordpress:wp-content/wp-includes/wp-json" ], shop_hint, finalUrl, status, error ⟩
  else if html ≠ "" then
    ⟨ "inconclusive", "low",
      sig5 ++ (if cartWordSearch none html.data then [ "hint:cart/checkout_words_present" ] else []),
      shop_hint, finalUrl, status, error ⟩
  else ⟨ "inconclusive", "low", [], shop_hint, finalUrl, status, error ⟩

/-- Source `fingerprint_platform_from_html`: lower-cases its HTML argument
and normalises the mode, then classifies. -/
def fingerprint_platform_from_html (html_lower final_url : String) (status : Option Int)
    (error : String) (shop_presence_mode : String) : FingerprintResult :=
  fp_from_html_core (pyLower html_lower) final_url status error (normMode shop_presence_mode)

/-! ### Network outcomes and the probe/fetch boundary -/

/-- Outcome of one `urllib.request.urlopen` call: a non-error response, a
raised `HTTPError` (carrying the response it wraps), or another raised
exception (carrying its type name and message). -/
inductive UrlOpenOutcome where
  | ok (finalUrl : String) (status : Option Int) (body : String) (headers : List (String × String))
  | httpError (code : Int) (body : String) (headers : List (String × String)) (reason : String)
  | exc (name msg : String)
deriving DecidableEq

/-- Outcome of one `nslookup` subprocess run. -/
inductive NsOutcome where
  | done (returncode : Int) (stdout stderr : String)
  | exc (name msg : String)
deriving DecidableEq

/-- Result of `fetch_html_playwright` (source `PlaywrightFetchResult`);
the browser interaction itself is an external effect supplied by the
environment. -/
structure PwResult where
  ok : Bool
  final_url : String
  status : Option Int
  html_lower : String
  error : String
  blocked_reasons : List String
deriving DecidableEq, Repr

/-- Network environment of one detection call: every outbound request is a
pure lookup keyed by the hostname or URL the source builds. -/
structure Env where
  nslookup : String → NsOutcome
  cartHttp : String → UrlOpenOutcome
  swHttp : String → UrlOpenOutcome
  wcHttp : String → UrlOpenOutcome
  http : String → UrlOpenOutcome
  fpHttp : String → UrlOpenOutcome
  pw : String → PwResult

/-- Probe invocations, in order. -/
inductive Event where
  | dnsLookup (host : String)
  | httpGet (url : String)
  | pwFetch (url : String)
deriving DecidableEq, Repr

/-- Python `str(HTTPError)`. -/
def httpErrorStr (code : Int) (reason : String) : String :=
  "HTTP Error " ++ toString code ++ ": " ++ reason

/-- Source `DnsProbeResult` (`dns_probe.py`). -/
structure DnsProbeResult where
  host : String
  shopify_cname : String
  raw_lines : List String
  error : String
deriving DecidableEq, Repr

/-- First Shopify CNAME hit among the nslookup output lines. -/
def firstCnameHit : List String → String
  | [] => ""
  | ln :: rest =>
    match cnameSearch ln.data with
    | some m => pyLower (rstripDots ⟨m⟩)
    | none => firstCnameHit rest

/-- Source `probe_shopify_cname` (`dns_probe.py`): parse `nslookup -type=CNAME`
output for a `myshopify.com` target. -/
def probe_shopify_cname (env : Env) (host : String) : DnsProbeResult × List Event :=
  let h := stripDots (pyStrip host)
  if h = "" then (⟨host, "", [], "empty_host"⟩, [])
  else
    match env.nslookup h with
    | .done rc stdout stderr =>
      let lines := ((splitLines (stdout ++ "\n" ++ stderr)).map pyStrip).filter (fun ln => ln ≠ "")
      let hit := firstCnameHit lines
      let err := if rc ≠ 0 ∧ hit = "" then "nslookup_exit_" ++ toString rc else ""
      (⟨h, hit, lines.take 50, err⟩, [ .dnsLookup h ])
    | .exc n m => (⟨h, "", [], n ++ ":" ++ m⟩, [ .dnsLookup h ])

/-- Result of the detector fetcher (source `local_detector._fetch_html`). -/
structure FetchRes where
  final_url : String
  status : Option Int
  html : String
  headers : List (String × String)
  error : String
deriving DecidableEq, Repr

/-- Source `local_detector._fetch_html`: note that a raised `HTTPError`
falls into the generic handler, which discards the response's status and
body. -/
def fetch_html (env : Env) (url : String) : FetchRes × List Event :=
  let u := normalize_url url
  if u = "" then (⟨"", none, "", [], "empty_url"⟩, [])
  else
    match env.http u with
    | .ok fu st body hdrs =>
      (⟨orElseStr fu u, st, pyLower body,
        hdrs.map (fun kv => (pyLower kv.1, pyLower kv.2)), ""⟩, [ .httpGet u ])
    | .httpError code _ _ reason =>
      (⟨u, none, "", [], "HTTPError:" ++ httpErrorStr code reason⟩, [ .httpGet u ])
    | .exc n m => (⟨u, none, "", [], n ++ ":" ++ m⟩, [ .httpGet u ])

/-- Result of the fingerprinting fetcher (source `fingerprinting._fetch_html`). -/
structure FpFetchRes where
  final_url : String
  html : String
  status : Option Int
  error : String
deriving DecidableEq, Repr

/-- Source `fingerprinting._fetch_html`: its dedicated `HTTPError` handler
keeps the error response's status code and lower-cased body. -/
def fp_fetch_html (env : Env) (url : String) : FpFetchRes × List Event :=
  let u := normalize_url url
  if u = "" then (⟨"", "", none, "empty_url"⟩, [])
  else
    match env.fpHttp u with
    | .ok fu st body _ => (⟨orElseStr fu u, pyLower body, st, ""⟩, [ .httpGet u ])
    | .httpError code body _ _ =>
      (⟨u, pyLower body, (if code = 0 then none else some code),
        "HTTPError:" ++ toString code⟩, [ .httpGet u ])
    | .exc n m => (⟨u, "", none, n ++ ":" ++ m⟩, [ .httpGet u ])

/-- Source `fingerprint_platform`: fetch, then classify; a fetch error with
no body is an `error` result. -/
def fingerprint_platform (env : Env) (url : String) (shop_presence_mode : String) :
    FingerprintResult × List Event :=
  let mode := normMode shop_presence_mode
  let r := fp_fetch_html env url
  if r.1.error ≠ "" ∧ r.1.html = "" then
    (⟨ "error", "low", [], "unclear", r.1.final_url, r.1.status, r.1.error ⟩, r.2)
  else
    (fingerprint_platform_from_html r.1.html r.1.final_url r.1.status r.1.error mode, r.2)

/-! ### Endpoint probers (`local_detector.py`) -/

/-- Python truthiness of a JSON number lexeme. -/
def jsonNumTruthy (lex : String) : Bool :=
  startsWithStr "N" lex || startsWithStr "I" lex || startsWithStr "-I" lex ||
  (lex.data.takeWhile (fun c => !(c == 'e' || c == 'E'))).any (fun c => '1' ≤ c && c ≤ '9')

/-- Python truthiness of a parsed JSON value. -/
def jsonTruthy : Json → Bool
  | .jnull => false
  | .jbool b => b
  | .jnum lex => jsonNumTruthy lex
  | .jstr s => s ≠ ""
  | .jarr xs => !xs.isEmpty
  | .jobj kvs => !kvs.isEmpty

mutual

/-- Python `str()` of a parsed JSON value (float display normalisation and
quote escaping inside containers are not modelled). -/
def pyJsonStr : Json → String
  | .jnull => "None"
  | .jbool b => if b then "True" else "False"
  | .jnum lex => lex
  | .jstr s => s
  | .jarr xs => "[" ++ joinWith ", " (pyJsonReprList xs) ++ "]"
  | .jobj kvs => "\x7b" ++ joinWith ", " (pyJsonKvList kvs) ++ "\x7d"

/-- `repr()` rendering of each list member. -/
def pyJsonReprList : List Json → List String
  | [] => []
  | x :: rest => pyJsonRepr x :: pyJsonReprList rest

/-- `repr()` rendering of each key/value pair. -/
def pyJsonKvList : List (String × Json) → List String
  | [] => []
  | kv :: rest => ("\x27" ++ kv.1 ++ "\x27: " ++ pyJsonRepr kv.2) :: pyJsonKvList rest

/-- Python `repr()` of a parsed JSON value inside a container. -/
def pyJsonRepr : Json → String
  | .jstr s => "\x27" ++ s ++ "\x27"
  | .jnull => "None"
  | .jbool b => if b then "True" else "False"
  | .jnum lex => lex
  | .jarr xs => "[" ++ joinWith ", " (pyJsonReprList xs) ++ "]"
  | .jobj kvs => "\x7b" ++ joinWith ", " (pyJsonKvList kvs) ++ "\x7d"

end

/-- Case-insensitive header lookup (the `email.message` mapping used by
`HTTPError.headers`). -/
def headersGetCI (hdrs : List (String × String)) (k : String) : String :=
  match hdrs.find? (fun kv => pyLower kv.1 == pyLower k) with
  | some kv => kv.2
  | none => ""

/-- Response handling of `_probe_shopify_cart_js`: hit iff HTTP 200 with a
non-blank body parsing as a JSON dict containing an `items` key. -/
def cart_js_classify (o : UrlOpenOutcome) : Bool × String :=
  match o with
  | .ok _ st body _ =>
    let status := st.getD 0
    if status ≠ 200 ∨ pyStrip body = "" then (false, "status_" ++ toString status)
    else
      match jsonLoads body with
      | none => (false, "json_parse_failed")
      | some (.jobj kvs) =>
        if jsonObjHasKey kvs "items" then (true, "cart_js_items") else (false, "json_no_items")
      | some _ => (false, "json_no_items")
  | .httpError code _ _ reason => (false, "HTTPError:" ++ httpErrorStr code reason)
  | .exc n m => (false, n ++ ":" ++ m)

/-- Source `_probe_shopify_cart_js`. -/
def probe_shopify_cart_js (env : Env) (host : String) : (Bool × String) × List Event :=
  let h := stripDots (pyLower (pyStrip host))
  if h = "" then ((false, "empty_host"), [])
  else
    let u := "https://" ++ h ++ "/cart.js"
    (cart_js_classify (env.cartHttp u), [ .httpGet u ])

/-- One error entry of the Shopware Store-API response: a dict whose
`detail` (stringified) mentions `sw-access-key`. -/
def sw_detail_hit (e : Json) : Bool :=
  match e with
  | .jobj ekvs =>
    let detail := match jsonObjGet ekvs "detail" with
      | some d => if jsonTruthy d then pyJsonStr d else ""
      | none => ""
    inStr "sw-access-key" (pyLower detail)
  | _ => false

/-- Response handling of `_probe_shopware_store_api_context`: hit iff a
401/403 `HTTPError` with a JSON content type and a JSON body whose
`errors[].detail` mentions `sw-access-key`. -/
def shopware_store_api_classify (o : UrlOpenOutcome) : Bool × String :=
  match o with
  | .ok _ st _ _ =>
    let status := st.getD 0
    if status = 200 then (false, "status_200_no_assert") else (false, "status_" ++ toString status)
  | .httpError code body hdrs _ =>
    let ct := pyLower (headersGetCI hdrs "content-type")
    if (code = 401 ∨ code = 403) ∧ inStr "json" ct ∧ pyStrip body ≠ "" then
      match jsonLoads body with
      | some (.jobj kvs) =>
        match jsonObjGet kvs "errors" with
        | some (.jarr errs) =>
          if errs.any sw_detail_hit then (true, "store_api_requires_sw_access_key")
          else (false, "http_" ++ toString code)
        | _ => (false, "http_" ++ toString code)
      | _ => (false, "http_" ++ toString code)
    else (false, "http_" ++ toString code)
  | .exc n m => (false, n ++ ":" ++ m)

/-- Source `_probe_shopware_store_api_context`. -/
def probe_shopware_store_api_context (env : Env) (host : String) : (Bool × String) × List Event :=
  let h := stripDots (pyLower (pyStrip host))
  if h = "" then ((false, "empty_host"), [])
  else
    let u := "https://" ++ h ++ "/store-api/context"
    (shopware_store_api_classify (env.swHttp u), [ .httpGet u ])

/-- Response handling of `_probe_wc_store_api_products`: any HTTP 200 with
a non-blank body parsing as JSON is a hit; the reason string records the
shape. -/
def wc_store_api_classify (o : UrlOpenOutcome) : Bool × String :=
  match o with
  | .ok _ st body _ =>
    let status := st.getD 0
    if status ≠ 200 ∨ pyStrip body = "" then (false, "status_" ++ toString status)
    else
      match jsonLoads body with
      | none => (false, "json_parse_failed")
      | some (.jarr xs) => (true, "list_len_" ++ toString xs.length)
      | some (.jobj kvs) =>
        if jsonObjHasKey kvs "products" || jsonObjHasKey kvs "items" then (true, "dict_products_like")
        else (true, "json_other_shape")
      | some _ => (true, "json_other_shape")
  | .httpError code _ _ reason => (false, "HTTPError:" ++ httpErrorStr code reason)
  | .exc n m => (false, n ++ ":" ++ m)

/-- Source `_probe_wc_store_api_products`. -/
def probe_wc_store_api_products (env : Env) (host : String) : (Bool × String) × List Event :=
  let h := stripDots (pyLower (pyStrip host))
  if h = "" then ((false, "empty_host"), [])
  else
    let u := "https://" ++ h ++ "/wp-json/wc/store/products?per_page=1"
    (wc_store_api_classify (env.wcHttp u), [ .httpGet u ])

/-! ### The cascade controller `detect_platform_local` (`local_detector.py`) -/

/-- Keyword configuration of `detect_platform_local`. -/
structure Config where
  shop_presence_mode : String := "installed"
  enable_wc_store_api_probe : Bool := false
  cautious_on_sticky : Bool := false
  playwright_fallback_on_blocked : Bool := false
  playwright_fallback_on_unknown : Bool := false

/-- The schema-shaped `model_result` payload. -/
structure ModelResult where
  input_url : String
  final_platform : String
  shop_presence : String
  other_platform_label : String
  confidence : String
  evidence_tier : String
  signals : List String
  reasoning : String
deriving DecidableEq, Repr

/-- The `debug["sticky"]` record. -/
structure StickyInfo where
  is_sticky : Bool
  reasons : List String
deriving DecidableEq, Repr

/-- One `debug["attempts"]` entry (keys absent in some source records are
flattened to `none`/`""`). -/
structure Attempt where
  url : String
  status : Option Int
  platform : String
  confidence : String
  shop_hint : String
  signals : List String
  error : String
  via : String
deriving DecidableEq, Repr

/-- A `{hit, reason}` probe record in `debug`. -/
structure ProbeDebug where
  hit : Bool
  reason : String
deriving DecidableEq, Repr

/-- The `debug["dns_shopify"]` record. -/
structure DnsDebug where
  host : String
  shopify_cname : String
  error : String
deriving DecidableEq, Repr

/-- The `debug["base_fetch"]` record. -/
structure BaseFetchDebug where
  final_url : String
  status : Option Int
  error : String
  html_chars : Nat
deriving DecidableEq, Repr

/-- The `debug["playwright_fetch"]` record. -/
structure PwDebug where
  ok : Bool
  final_url : String
  status : Option Int
  error : String
  blocked_reasons : List String
  html_chars : Nat
deriving DecidableEq, Repr

/-- The accumulated `debug` record. The defaults are the source's
initialisation. -/
structure Debug where
  input_url : String := ""
  host : String := ""
  attempts : List Attempt := []
  sticky : StickyInfo := ⟨false, []⟩
  dns_shopify : Option DnsDebug := none
  shopify_cart_js_probe : Option ProbeDebug := none
  shopware_store_api_probe : Option ProbeDebug := none
  base_fetch : Option BaseFetchDebug := none
  playwright_fetch : Option PwDebug := none
  wc_store_api_probe : Option ProbeDebug := none
deriving DecidableEq, Repr

/-- Source `LocalDetectResult`. -/
structure LocalDetectResult where
  model_result : ModelResult
  debug : Debug
deriving DecidableEq, Repr

/-- The named-platform membership test used by every cascade guard. -/
def isNamedPlatform (p : String) : Bool :=
  p == "woocommerce" || p == "shopify" || p == "shopware" || p == "magento"

/-- `sp = "shop" if mode == "installed" else (fp.shop_presence_hint or "unclear")`. -/
def spOf (mode : String) (fp : FingerprintResult) : String :=
  if mode = "installed" then "shop" else orElseStr fp.shop_presence_hint "unclear"

/-- Shape shared by all fingerprint-derived `model_result` dicts: evidence
tier `A` exactly when confidence is high or medium, else `C`; signals
capped at 8. -/
def mk_model_result (input_url platform : String) (signals : List String)
    (sp conf lbl reasoning : String) : ModelResult :=
  ⟨input_url, platform, sp, lbl, conf,
   (if conf = "high" ∨ conf = "medium" then "A" else "C"), signals.take 8, reasoning⟩

/-- Source `_as_model_result` (closure inside `detect_platform_local`). -/
def as_model_result (input_url platform : String) (signals : List String)
    (sp conf lbl : String) : ModelResult :=
  mk_model_result input_url platform signals sp conf lbl "Local HTML fingerprinting."

/-- Bot-challenge vocabulary. -/
def challengeMarkers : List String :=
  [ "cloudflare", "attention required", "captcha", "perimeterx", "datadome", "access denied" ]

/-- Sticky heuristics over the base fetch (source lines 347-362). -/
def compute_sticky_reasons (base_status : Option Int) (base_html base_err : String) : List String :=
  (if base_err ≠ "" then [ "fetch_error" ] else [])
  ++ (match base_status with
      | some s => if s = 403 ∨ s = 429 ∨ s = 503 then [ "http_" ++ toString s ] else []
      | none => [])
  ++ (if challengeMarkers.any (fun m => inStr m base_html) then [ "bot_protection_challenge" ] else [])
  ++ (if base_html ≠ "" then
        (if inStr "id=\"__next\"" base_html || inStr "__next_data__" base_html
            || inStr "data-reactroot" base_html then [ "js_framework_root" ] else [])
        ++ (if 12 ≤ countSub "<script" base_html ∧ (stripTags base_html).length < 5000 then
              [ "js_heavy_minimal_html" ] else [])
      else [])

/-- The `debug["playwright_fetch"]` record of a Playwright result. -/
def pwDebugOf (pw : PwResult) : PwDebug :=
  ⟨pw.ok, pw.final_url, pw.status, pw.error, pw.blocked_reasons, pw.html_lower.length⟩

/-- `dict.get(k, "")` on a headers map built by a comprehension (duplicate
keys: last wins). -/
def dictGet (hdrs : List (String × String)) (k : String) : String :=
  match hdrs.reverse.find? (fun kv => kv.1 == k) with
  | some kv => kv.2
  | none => ""

/-- Output of one discovery loop: appended attempts, emitted events, and
the short-circuit result if a named platform was found. -/
structure LoopOut where
  atts : List Attempt
  events : List Event
  result : Option ModelResult

/-- Step 4 loop: follow extracted shop links (source lines 540-563). -/
def link_loop (env : Env) (mode input_url : String) : List String → LoopOut
  | [] => ⟨[], [], none⟩
  | link :: rest =>
    let pr := fingerprint_platform env link mode
    let fp := pr.1
    let att : Attempt := ⟨link, none, fp.platform, fp.confidence, fp.shop_presence_hint, fp.signals, fp.error, ""⟩
    if isNamedPlatform fp.platform then
      ⟨[ att ], pr.2, some (as_model_result input_url fp.platform fp.signals (spOf mode fp) fp.confidence "")⟩
    else
      let r := link_loop env mode input_url rest
      ⟨att :: r.atts, pr.2 ++ r.events, r.result⟩

/-- Step 4b loop: probe common shop paths on the same origin (source
lines 570-603). -/
def path_loop (env : Env) (mode input_url : String) : List String → LoopOut
  | [] => ⟨[], [], none⟩
  | candidate :: rest =>
    let fr := fetch_html env candidate
    let f := fr.1
    let fp := fingerprint_platform_from_html f.html (orElseStr f.final_url candidate) f.status f.error mode
    let att : Attempt := ⟨orElseStr f.final_url candidate, f.status, fp.platform, fp.confidence,
                          fp.shop_presence_hint, fp.signals, fp.error, "path_probe"⟩
    if isNamedPlatform fp.platform then
      ⟨[ att ], fr.2, some (as_model_result input_url fp.platform fp.signals (spOf mode fp) fp.confidence "")⟩
    else
      let r := path_loop env mode input_url rest
      ⟨att :: r.atts, fr.2 ++ r.events, r.result⟩

/-- Step 5 loop: probe common shop subdomains (source lines 606-630). -/
def sub_loop (env : Env) (mode input_url : String) : List String → LoopOut
  | [] => ⟨[], [], none⟩
  | sub_host :: rest =>
    let sub_url := "https://" ++ sub_host ++ "/"
    let pr := fingerprint_platform env sub_url mode
    let fp := pr.1
    let att : Attempt := ⟨sub_url, none, fp.platform, fp.confidence, fp.shop_presence_hint, fp.signals, fp.error, ""⟩
    if isNamedPlatform fp.platform then
      ⟨[ att ], pr.2, some (as_model_result input_url fp.platform fp.signals (spOf mode fp) fp.confidence "")⟩
    else
      let r := sub_loop env mode input_url rest
      ⟨att :: r.atts, pr.2 ++ r.events, r.result⟩

/-- The terminal `unknown` result (source lines 684-693). -/
def unknownMR (input_url : String) : ModelResult :=
  ⟨input_url, "unknown", "unclear", "", "low", "C", [],
   "Local detection inconclusive (JS-heavy site, blocked, or no clear markers)."⟩

/-- Step 6: give up (source lines 683-694). -/
def step6_unknown (input_url : String) (dbg : Debug) (ev : List Event) :
    LocalDetectResult × List Event :=
  (⟨unknownMR input_url, dbg⟩, ev)

/-- Step 5c: optional Playwright fallback before returning unknown (source
lines 637-681); skipped when `debug["playwright_fetch"]` is already set. -/
def step5c_pw_unknown (cfg : Config) (env : Env) (mode input_url base_final : String)
    (dbg : Debug) (ev : List Event) : LocalDetectResult × List Event :=
  if cfg.playwright_fallback_on_unknown then
    if dbg.playwright_fetch.isSome then step6_unknown input_url dbg ev
    else
      let u := orElseStr base_final input_url
      let pw := env.pw u
      let ev1 := ev ++ [ .pwFetch u ]
      let dbg1 := { dbg with playwright_fetch := some (pwDebugOf pw) }
      if pw.ok ∧ pw.html_lower ≠ "" then
        let fp := fingerprint_platform_from_html pw.html_lower (orElseStr pw.final_url u) pw.status "" mode
        let dbg2 := { dbg1 with attempts := dbg1.attempts ++
          [ ⟨fp.final_url, fp.status, fp.platform, fp.confidence, fp.shop_presence_hint, fp.signals, fp.error, "playwright"⟩ ] }
        if isNamedPlatform fp.platform then
          (⟨mk_model_result input_url fp.platform fp.signals (spOf mode fp) fp.confidence ""
              "Local HTML fingerprinting (via Playwright fallback).", dbg2⟩, ev1)
        else step6_unknown input_url dbg2 ev1
      else step6_unknown input_url dbg1 ev1
  else step6_unknown input_url dbg ev

/-- Step 5b: return the deferred tentative `other` result if one was held
(source lines 632-633). -/
def step5b_tentative (cfg : Config) (env : Env) (mode input_url base_final : String)
    (tentative : Option ModelResult) (dbg : Debug) (ev : List Event) :
    LocalDetectResult × List Event :=
  match tentative with
  | some mr => (⟨mr, dbg⟩, ev)
  | none => step5c_pw_unknown cfg env mode input_url base_final dbg ev

/-- Step 5 continuation: merge the subdomain-loop output (its attempts and
events are recorded either way; a named-platform hit short-circuits). -/
def step5_go (cfg : Config) (env : Env) (mode input_url host base_final : String)
    (tentative : Option ModelResult) (dbg : Debug) (ev : List Event) (r : LoopOut) :
    LocalDetectResult × List Event :=
  match r.result with
  | some mr => (⟨mr, { dbg with attempts := dbg.attempts ++ r.atts }⟩, ev ++ r.events)
  | none => step5b_tentative cfg env mode input_url base_final tentative
      { dbg with attempts := dbg.attempts ++ r.atts } (ev ++ r.events)

/-- Step 5: probe shop subdomains. -/
def step5_subdomains (cfg : Config) (env : Env) (mode input_url host base_final : String)
    (tentative : Option ModelResult) (dbg : Debug) (ev : List Event) :
    LocalDetectResult × List Event :=
  step5_go cfg env mode input_url host base_final tentative dbg ev
    (sub_loop env mode input_url (subdomain_candidates host))

/-- The same-origin path candidates. -/
def pathProbeList : List String := [ "/shop", "/shop/", "/store", "/store/", "/webshop", "/webshop/" ]

/-- Step 4b continuation: merge the path-loop output. -/
def step4b_go (cfg : Config) (env : Env) (mode input_url host base_final : String)
    (tentative : Option ModelResult) (dbg : Debug) (ev : List Event) (r : LoopOut) :
    LocalDetectResult × List Event :=
  match r.result with
  | some mr => (⟨mr, { dbg with attempts := dbg.attempts ++ r.atts }⟩, ev ++ r.events)
  | none => step5_subdomains cfg env mode input_url host base_final tentative
      { dbg with attempts := dbg.attempts ++ r.atts } (ev ++ r.events)

/-- Step 4b: probe common shop paths, only when the homepage fetch was not
sticky. -/
def step4b_paths (cfg : Config) (env : Env) (mode input_url host base_final : String)
    (sticky_reasons : List String) (tentative : Option ModelResult) (dbg : Debug)
    (ev : List Event) : LocalDetectResult × List Event :=
  if sticky_reasons = [] then
    if origin_from_url (orElseStr base_final input_url) ≠ "" then
      step4b_go cfg env mode input_url host base_final tentative dbg ev
        (path_loop env mode input_url
          (pathProbeList.map (fun p => urljoin (origin_from_url (orElseStr base_final input_url)) p)))
    else step5_subdomains cfg env mode input_url host base_final tentative dbg ev
  else step5_subdomains cfg env mode input_url host base_final tentative dbg ev

/-- Step 4 continuation: merge the link-loop output. -/
def step4_go (cfg : Config) (env : Env) (mode input_url host base_final : String)
    (sticky_reasons : List String) (tentative : Option ModelResult) (dbg : Debug)
    (ev : List Event) (r : LoopOut) : LocalDetectResult × List Event :=
  match r.result with
  | some mr => (⟨mr, { dbg with attempts := dbg.attempts ++ r.atts }⟩, ev ++ r.events)
  | none => step4b_paths cfg env mode input_url host base_final sticky_reasons tentative
      { dbg with attempts := dbg.attempts ++ r.atts } (ev ++ r.events)

/-- Step 4: follow likely shop links from the homepage. -/
def step4_links (cfg : Config) (env : Env) (mode input_url host base_final base_html : String)
    (sticky_reasons : List String) (tentative : Option ModelResult) (dbg : Debug)
    (ev : List Event) : LocalDetectResult × List Event :=
  step4_go cfg env mode input_url host base_final sticky_reasons tentative dbg ev
    (link_loop env mode input_url (extract_shop_links (orElseStr base_final input_url) base_html))

/-- Step 3b: optional WooCommerce Store-API probe when WooCommerce assets
were seen without shop presence (source lines 524-537). -/
def step3b_wc (cfg : Config) (env : Env) (mode input_url host base_final base_html : String)
    (sticky_reasons : List String) (fp0 : FingerprintResult) (tentative : Option ModelResult)
    (dbg : Debug) (ev : List Event) : LocalDetectResult × List Event :=
  if cfg.enable_wc_store_api_probe ∧ mode = "functional" ∧ host ≠ "" ∧
     fp0.signals.any (fun s => startsWithStr "woocommerce:" s) then
    let pr := probe_wc_store_api_products env host
    let ev1 := ev ++ pr.2
    let dbg1 := { dbg with wc_store_api_probe := some ⟨pr.1.1, pr.1.2⟩ }
    if pr.1.1 then
      (⟨as_model_result input_url "woocommerce"
          (fp0.signals ++ [ "woocommerce:store_api:" ++ pr.1.2 ]) "shop" "medium" "", dbg1⟩, ev1)
    else step4_links cfg env mode input_url host base_final base_html sticky_reasons tentative dbg1 ev1
  else step4_links cfg env mode input_url host base_final base_html sticky_reasons tentative dbg ev

/-- Step 3: fingerprint the homepage; short-circuit on a named platform,
else hold a tentative `other` (source lines 454-520). The tentative
shop-presence consults the accumulated `debug["sticky"]` record. -/
def step3_fingerprint (cfg : Config) (env : Env) (mode input_url host base_final : String)
    (base_status : Option Int) (base_html base_err : String) (sticky_reasons : List String)
    (dbg : Debug) (ev : List Event) : LocalDetectResult × List Event :=
  let fpPair :=
    if base_html ≠ "" then
      (fingerprint_platform_from_html base_html (orElseStr base_final input_url) base_status base_err mode,
       ([] : List Event))
    else fingerprint_platform env (orElseStr base_final input_url) mode
  let fp0 := fpPair.1
  let ev1 := ev ++ fpPair.2
  let dbg1 := { dbg with attempts := dbg.attempts ++
    [ ⟨orElseStr base_final input_url, base_status, fp0.platform, fp0.confidence,
       fp0.shop_presence_hint, fp0.signals, fp0.error, ""⟩ ] }
  if isNamedPlatform fp0.platform then
    (⟨as_model_result input_url fp0.platform fp0.signals (spOf mode fp0) fp0.confidence "", dbg1⟩, ev1)
  else
    let tentative : Option ModelResult :=
      if fp0.platform = "other" then
        let other_label := if fp0.signals.any (fun s => startsWithStr "wordpress:" s) then "wordpress" else ""
        let sp :=
          if cfg.cautious_on_sticky ∧ mode = "functional" ∧ dbg1.sticky.is_sticky then "unclear"
          else if fp0.shop_presence_hint = "shop" then "shop" else "not_shop"
        some (as_model_result input_url "other" fp0.signals sp fp0.confidence other_label)
      else none
    step3b_wc cfg env mode input_url host base_final base_html sticky_reasons fp0 tentative dbg1 ev1

/-- Step 2c: header/cookie hints for Shopware and Shopify (source lines
415-452). -/
def step2c_headers (cfg : Config) (env : Env) (mode input_url host base_final : String)
    (base_status : Option Int) (base_html : String) (base_headers : List (String × String))
    (base_err : String) (sticky_reasons : List String) (dbg : Debug) (ev : List Event) :
    LocalDetectResult × List Event :=
  let header_blob := pyLower (joinWith " "
    [ dictGet base_headers "server", dictGet base_headers "x-powered-by",
      dictGet base_headers "x-generator", dictGet base_headers "set-cookie" ])
  let set_cookie := dictGet base_headers "set-cookie"
  let sw_cookie_hint := inStr "sw-context-token" set_cookie || inStr "sw-cache-hash" set_cookie
  if base_headers.any (fun kv => startsWithStr "x-shopware" kv.1) || inStr "shopware" header_blob
     || sw_cookie_hint then
    (⟨⟨input_url, "shopware", (if mode = "installed" then "shop" else "unclear"), "", "high", "A",
       [ "header/cookie:shopware_hint" ] ++ (if sw_cookie_hint then [ "cookie:sw_context_or_cache_hash" ] else []),
       "HTTP headers/cookies indicate Shopware."⟩, dbg⟩, ev)
  else if inStr "_shopify" set_cookie
       || inStr "shopify" (dictGet base_headers "server" ++ " " ++ dictGet base_headers "x-powered-by") then
    (⟨⟨input_url, "shopify", "shop", "", "high", "A", [ "header/cookie:shopify_hint" ],
       "HTTP headers/cookies indicate Shopify."⟩, dbg⟩, ev)
  else
    step3_fingerprint cfg env mode input_url host base_final base_status base_html base_err
      sticky_reasons dbg ev

/-- Step 2b: optional Playwright fallback when the plain fetch is blocked
or empty (source lines 367-413). -/
def step2b_pw_blocked (cfg : Config) (env : Env) (mode input_url host base_final : String)
    (base_status : Option Int) (base_html : String) (base_headers : List (String × String))
    (base_err : String) (sticky_reasons : List String) (dbg : Debug) (ev : List Event) :
    LocalDetectResult × List Event :=
  if cfg.playwright_fallback_on_blocked ∧ (base_html = "" ∨ sticky_reasons ≠ []) then
    let u := orElseStr base_final input_url
    let pw := env.pw u
    let ev1 := ev ++ [ .pwFetch u ]
    let dbg1 := { dbg with playwright_fetch := some (pwDebugOf pw) }
    if pw.ok ∧ pw.html_lower ≠ "" then
      let fp := fingerprint_platform_from_html pw.html_lower (orElseStr pw.final_url u) pw.status "" mode
      let dbg2 := { dbg1 with attempts := dbg1.attempts ++
        [ ⟨fp.final_url, fp.status, fp.platform, fp.confidence, fp.shop_presence_hint, fp.signals, fp.error, "playwright"⟩ ] }
      if isNamedPlatform fp.platform then
        (⟨mk_model_result input_url fp.platform fp.signals (spOf mode fp) fp.confidence ""
            "Local HTML fingerprinting (via Playwright fallback).", dbg2⟩, ev1)
      else
        step2c_headers cfg env mode input_url host base_final base_status base_html base_headers
          base_err sticky_reasons dbg2 ev1
    else
      step2c_headers cfg env mode input_url host base_final base_status base_html base_headers
        base_err sticky_reasons dbg1 ev1
  else
    step2c_headers cfg env mode input_url host base_final base_status base_html base_headers
      base_err sticky_reasons dbg ev

/-- Step 2: fetch the homepage and compute the sticky verdict (source
lines 342-365). -/
def step2_base_fetch (cfg : Config) (env : Env) (mode input_url host : String)
    (dbg : Debug) (ev : List Event) : LocalDetectResult × List Event :=
  let fr := fetch_html env input_url
  let f := fr.1
  let ev1 := ev ++ fr.2
  let dbg1 := { dbg with base_fetch := some ⟨f.final_url, f.status, f.error, f.html.length⟩ }
  let sticky_reasons := compute_sticky_reasons f.status f.html f.error
  let dbg2 := if sticky_reasons ≠ [] then { dbg1 with sticky := ⟨true, sticky_reasons⟩ } else dbg1
  step2b_pw_blocked cfg env mode input_url host f.final_url f.status f.html f.headers f.error
    sticky_reasons dbg2 ev1

/-- Step 1c: Shopware Store-API probe (source lines 324-340). -/
def step1c_shopware_api (cfg : Config) (env : Env) (mode input_url host : String)
    (dbg : Debug) (ev : List Event) : LocalDetectResult × List Event :=
  if host ≠ "" then
    let pr := probe_shopware_store_api_context env host
    let ev1 := ev ++ pr.2
    let dbg1 := { dbg with shopware_store_api_probe := some ⟨pr.1.1, pr.1.2⟩ }
    if pr.1.1 then
      (⟨⟨input_url, "shopware", (if mode = "installed" then "shop" else "unclear"), "", "high", "A",
         [ "shopware:/store-api/context", "shopware:store_api:" ++ pr.1.2 ],
         "Shopware Store API endpoint indicates Shopware."⟩, dbg1⟩, ev1)
    else step2_base_fetch cfg env mode input_url host dbg1 ev1
  else step2_base_fetch cfg env mode input_url host dbg ev

/-- Step 1b: Shopify `/cart.js` probe (source lines 307-322). -/
def step1b_cart_js (cfg : Config) (env : Env) (mode input_url host : String)
    (dbg : Debug) (ev : List Event) : LocalDetectResult × List Event :=
  if host ≠ "" then
    let pr := probe_shopify_cart_js env host
    let ev1 := ev ++ pr.2
    let dbg1 := { dbg with shopify_cart_js_probe := some ⟨pr.1.1, pr.1.2⟩ }
    if pr.1.1 then
      (⟨⟨input_url, "shopify", "shop", "", "high", "A", [ "shopify:/cart.js" ],
         "Shopify cart endpoint indicates a functional Shopify shop."⟩, dbg1⟩, ev1)
    else step1c_shopware_api cfg env mode input_url host dbg1 ev1
  else step1c_shopware_api cfg env mode input_url host dbg ev

/-- Step 1: DNS Shopify hint (source lines 290-305). -/
def step1_dns (cfg : Config) (env : Env) (mode input_url host : String)
    (dbg : Debug) (ev : List Event) : LocalDetectResult × List Event :=
  let pr := probe_shopify_cname env host
  let ev1 := ev ++ pr.2
  if host ≠ "" ∧ pr.1.shopify_cname ≠ "" then
    let dbg1 := { dbg with dns_shopify := some ⟨pr.1.host, pr.1.shopify_cname, pr.1.error⟩ }
    (⟨⟨input_url, "shopify", (if mode = "installed" then "shop" else "unclear"), "", "high", "A",
       [ "dns:cname->" ++ pr.1.shopify_cname ], "DNS CNAME indicates Shopify (myshopify)."⟩, dbg1⟩, ev1)
  else step1b_cart_js cfg env mode input_url host dbg ev1

/-- Source `detect_platform_local`, with the initial contents of the
`debug` record as an explicit parameter `d0` (so that claims about
recorded debug contents can be stated); the probe trail of invoked
network operations is returned alongside. -/
def detect_platform_local_aux (cfg : Config) (env : Env) (url : String) (d0 : Debug) :
    LocalDetectResult × List Event :=
  let mode := normMode cfg.shop_presence_mode
  let input_url := normalize_url url
  let host := host_from_url input_url
  step1_dns cfg env mode input_url host { d0 with input_url := input_url, host := host } []

/-- Source `detect_platform_local` with the source's own `debug`
initialisation. -/
def detect_platform_local (cfg : Config) (env : Env) (url : String) :
    LocalDetectResult × List Event :=
  detect_platform_local_aux cfg env url {}

/-! ### Definitions used to state the claims -/

/-- The confidence/evidence-tier pairing invariant of the output contract. -/
def pairing_invariant (r : ModelResult) : Prop :=
  (r.evidence_tier = "A" → r.confidence = "high" ∨ r.confidence = "medium") ∧
  (r.final_platform = "unknown" → r.confidence = "low")

/-- Case-variant relation: equal character lists up to upper/lower case. -/
def sameLowered : List Char → List Char → Bool
  | [], [] => true
  | a :: as, b :: bs => lowerChar a == lowerChar b && sameLowered as bs
  | _, _ => false

/-- Modelled from the claim's words (spec section 4.4): the WooCommerce
Store-API prober "reports a hit if and only if the endpoint responds with
HTTP 200 and a body that parses as a JSON array or as a JSON dict
containing a `products` or `items` key". Stated for comparison with the
source classifier `wc_store_api_classify`. -/
def wc_hit_per_claim (o : UrlOpenOutcome) : Bool :=
  match o with
  | .ok _ st body _ =>
    (st.getD 0 == 200) &&
    (match jsonLoads body with
     | some (.jarr _) => true
     | some (.jobj kvs) => jsonObjHasKey kvs "products" || jsonObjHasKey kvs "items"
     | _ => false)
  | _ => false

/-- A concrete no-signal HTTP outcome, used by concrete environments in
witnesses and counterexamples. -/
def excOutcome : UrlOpenOutcome := .exc "URLError" "unreachable"

/-- A concrete failed Playwright result. -/
def pwFailed : PwResult := ⟨false, "", none, "", "err", []⟩

/-- Concrete environment: a DNS CNAME to `shops.myshopify.com.` and no
other signal. -/
def envDnsHit : Env :=
  { nslookup := fun _ => .done 0 "www.x.example canonical name = shops.myshopify.com.\n" "",
    cartHttp := fun _ => excOutcome, swHttp := fun _ => excOutcome, wcHttp := fun _ => excOutcome,
    http := fun _ => excOutcome, fpHttp := fun _ => excOutcome, pw := fun _ => pwFailed }

/-- Concrete environment: homepage answers HTTP 403 with a captcha body;
every other probe fails. -/
def envCaptcha403 : Env :=
  { nslookup := fun _ => .done 1 "" "", cartHttp := fun _ => excOutcome,
    swHttp := fun _ => excOutcome, wcHttp := fun _ => excOutcome,
    http := fun _ => .httpError 403 "please solve this captcha to continue" [] "Forbidden",
    fpHttp := fun _ => excOutcome, pw := fun _ => pwFailed }

/-- A plain WordPress brochure homepage (two WordPress markers, no shop
vocabulary). -/
def wpBrochureHtml : String := "<html>wp-content/ wp-includes/ plain brochure</html>"

/-- Concrete environment: clean 200 homepage fetch of `wpBrochureHtml` for
`https://ex.example`; everything else fails. -/
def envWpBrochure : Env :=
  { nslookup := fun _ => .done 1 "" "", cartHttp := fun _ => excOutcome,
    swHttp := fun _ => excOutcome, wcHttp := fun _ => excOutcome,
    http := fun u => if u = "https://ex.example" then .ok "https://ex.example" (some 200) wpBrochureHtml [] else excOutcome,
    fpHttp := fun _ => excOutcome, pw := fun _ => pwFailed }

/-- The cautious functional-mode configuration. -/
def cfgCautiousFunctional : Config := { shop_presence_mode := "functional", cautious_on_sticky := true }

/-- Concrete environment where every HTTP transport yields the same 403
response carrying a captcha body. -/
def envBoth403 : Env :=
  { nslookup := fun _ => .done 1 "" "",
    cartHttp := fun _ => .httpError 403 "CAPTCHA Check Required" [] "Forbidden",
    swHttp := fun _ => .httpError 403 "CAPTCHA Check Required" [] "Forbidden",
    wcHttp := fun _ => .httpError 403 "CAPTCHA Check Required" [] "Forbidden",
    http := fun _ => .httpError 403 "CAPTCHA Check Required" [] "Forbidden",
    fpHttp := fun _ => .httpError 403 "CAPTCHA Check Required" [] "Forbidden",
    pw := fun _ => pwFailed }

/-- A debug record that differs from the source's initialisation only in
the recorded sticky verdict. -/
def debugWithStickyRecorded : Debug := { sticky := ⟨true, [ "injected" ]⟩ }


/-! ## Supporting lemmas: stripping and substrings -/

lemma str_append_data (a b : String) : (a ++ b).data = a.data ++ b.data := rfl

lemma dw_idem (p : Char → Bool) (l : List Char) :
    (l.dropWhile p).dropWhile p = l.dropWhile p := by
  induction l with
  | nil => rfl
  | cons c rest ih =>
    by_cases h : p c
    · simp [List.dropWhile_cons, h, ih]
    · simp [List.dropWhile_cons, h]

lemma dw_length_le (p : Char → Bool) (l : List Char) : (l.dropWhile p).length ≤ l.length := by
  induction l with
  | nil => simp
  | cons c rest ih =>
    rw [List.dropWhile_cons]
    by_cases h : p c
    · simp only [h, if_true]
      calc (rest.dropWhile p).length ≤ rest.length := ih
        _ ≤ (c :: rest).length := by simp
    · simp [h]

lemma dw_eq_self_head {p : Char → Bool} {c : Char} {rest : List Char}
    (h : (c :: rest).dropWhile p = c :: rest) : p c = false := by
  by_contra hc
  rw [Bool.not_eq_false] at hc
  rw [List.dropWhile_cons, if_pos hc] at h
  have hle := dw_length_le p rest
  rw [h] at hle
  simp at hle

lemma dropTrail_idem (p : Char → Bool) (l : List Char) :
    dropTrail p (dropTrail p l) = dropTrail p l := by
  unfold dropTrail
  rw [List.reverse_reverse, dw_idem]

lemma stripList_rev_dw (p : Char → Bool) (l : List Char) :
    (stripList p l).reverse.dropWhile p = (stripList p l).reverse := by
  unfold stripList dropTrail
  rw [List.reverse_reverse]
  exact dw_idem p _

lemma stripList_dropWhile (p : Char → Bool) (l : List Char) :
    (stripList p l).dropWhile p = (stripList p l) := by
  have hzdw : (l.dropWhile p).dropWhile p = l.dropWhile p := dw_idem p l
  have hsplit : l.dropWhile p = stripList p l ++ ((l.dropWhile p).reverse.takeWhile p).reverse := by
    conv_lhs => rw [← List.reverse_reverse (l.dropWhile p),
      ← List.takeWhile_append_dropWhile (p := p) (l := (l.dropWhile p).reverse)]
    rw [List.reverse_append]
    rfl
  cases hw : stripList p l with
  | nil => rfl
  | cons c ws =>
    rw [hw, List.cons_append] at hsplit
    rw [hsplit] at hzdw
    have hc : p c = false := dw_eq_self_head hzdw
    rw [List.dropWhile_cons]
    simp [hc]

lemma stripList_idem (p : Char → Bool) (l : List Char) :
    stripList p (stripList p l) = stripList p l := by
  show dropTrail p ((stripList p l).dropWhile p) = stripList p l
  rw [stripList_dropWhile]
  show dropTrail p (dropTrail p (l.dropWhile p)) = dropTrail p (l.dropWhile p)
  exact dropTrail_idem p _

lemma pyStrip_idem (s : String) : pyStrip (pyStrip s) = pyStrip s :=
  congrArg String.mk (stripList_idem _ _)

lemma pyStrip_append_https (s : String) (hne : pyStrip s ≠ "") :
    pyStrip ("https://" ++ pyStrip s) = "https://" ++ pyStrip s := by
  have hud : stripList isPySpace s.data ≠ [] := by
    intro h
    apply hne
    show (⟨stripList isPySpace s.data⟩ : String) = ""
    rw [h]
  have key : stripList isPySpace ("https://".data ++ stripList isPySpace s.data)
      = "https://".data ++ stripList isPySpace s.data := by
    set ud := stripList isPySpace s.data with hud_def
    have h1 : ("https://".data ++ ud).dropWhile isPySpace = "https://".data ++ ud := by
      show ('h' :: ("ttps://".data ++ ud)).dropWhile isPySpace = _
      rw [List.dropWhile_cons]
      simp [show isPySpace 'h' = false from rfl]
    unfold stripList
    rw [h1]
    unfold dropTrail
    rw [List.reverse_append]
    have hrev : ud.reverse.dropWhile isPySpace = ud.reverse := stripList_rev_dw _ _
    cases hc : ud.reverse with
    | nil =>
      exact absurd (by simpa using congrArg List.reverse hc) hud
    | cons c t =>
      have hpc : isPySpace c = false := dw_eq_self_head (by rw [← hc]; exact hrev)
      have hud_eq : ud = t.reverse ++ [ c ] := by
        have h2 := congrArg List.reverse hc
        rw [List.reverse_reverse] at h2
        rw [h2]; simp
      rw [List.cons_append, List.dropWhile_cons]
      simp only [hpc, Bool.false_eq_true, if_false]
      simp [hud_eq]
  exact congrArg String.mk key

lemma isPre_append_self (pre t : List Char) : isPre pre (pre ++ t) = true := by
  induction pre with
  | nil => rfl
  | cons a as ih => simp [isPre, ih]

lemma https_append_ne (u : String) : ("https://" ++ u) ≠ "" := by
  intro h
  have h2 := congrArg String.data h
  rw [str_append_data] at h2
  simp [String.data] at h2

lemma startsWith_https_lower (u : String) :
    startsWithStr "https://" (pyLower ("https://" ++ u)) = true := by
  show isPre "https://".data ((("https://" ++ u).data).map lowerChar) = true
  rw [str_append_data, List.map_append]
  have hl : "https://".data.map lowerChar = "https://".data := by decide
  rw [hl]
  exact isPre_append_self _ _

lemma normalize_url_empty : normalize_url "" = "" := rfl

lemma normalize_url_idem (s : String) :
    normalize_url (normalize_url s) = normalize_url s := by
  by_cases h0 : pyStrip s = ""
  · rw [show normalize_url s = "" by rw [normalize_url, if_pos h0]]
    exact normalize_url_empty
  · by_cases h1 : (startsWithStr "http://" (pyLower (pyStrip s))
        || startsWithStr "https://" (pyLower (pyStrip s))) = true
    · have hv : normalize_url s = pyStrip s := by
        rw [normalize_url, if_neg h0, if_pos h1]
      rw [hv, normalize_url, pyStrip_idem, if_neg h0, if_pos h1]
    · have hv : normalize_url s = "https://" ++ pyStrip s := by
        rw [normalize_url, if_neg h0, if_neg h1]
      rw [hv, normalize_url, pyStrip_append_https s h0, if_neg (https_append_ne _),
        if_pos (by simp [startsWith_https_lower])]

/-- C9: URL normalization is idempotent: applying `_normalize_url` to its
own output yields that same output, for every input string. -/
theorem c9_normalize_url_idempotent (s : String) :
    normalize_url (normalize_url s) = normalize_url s :=
  normalize_url_idem s


/-! ## Substring lemmas -/

lemma isPre_iff (n l : List Char) : isPre n l = true ↔ ∃ t, l = n ++ t := by
  induction n generalizing l with
  | nil => simp [isPre]
  | cons a as ih =>
    cases l with
    | nil => simp [isPre]
    | cons b bs =>
      rw [isPre]
      simp only [Bool.and_eq_true, beq_iff_eq, ih]
      constructor
      · rintro ⟨rfl, t, rfl⟩
        exact ⟨t, rfl⟩
      · rintro ⟨t, ht⟩
        rw [List.cons_append] at ht
        injection ht with h1 h2
        exact ⟨h1.symm, t, h2⟩

lemma subIn_iff (n h : List Char) : subIn n h = true ↔ ∃ x y, h = x ++ n ++ y := by
  induction h with
  | nil =>
    rw [subIn]
    cases n with
    | nil => simp [isPre]
    | cons a as =>
      simp only [isPre, Bool.false_eq_true, false_iff]
      rintro ⟨x, y, hxy⟩
      simp at hxy
  | cons c rest ih =>
    rw [subIn]
    simp only [Bool.or_eq_true, ih, isPre_iff]
    constructor
    · rintro (⟨t, ht⟩ | ⟨x, y, hxy⟩)
      · exact ⟨[], t, by simpa using ht⟩
      · exact ⟨c :: x, y, by simp [hxy]⟩
    · rintro ⟨x, y, hxy⟩
      cases x with
      | nil =>
        left
        exact ⟨y, by simpa using hxy⟩
      | cons x0 xs =>
        right
        have hxy2 : c :: rest = x0 :: (xs ++ n ++ y) := by simpa using hxy
        injection hxy2 with h1 h2
        exact ⟨xs, y, h2⟩

lemma subIn_of_isPre {n l : List Char} (hx : isPre n l = true) : subIn n l = true := by
  obtain ⟨t, rfl⟩ := (isPre_iff _ _).mp hx
  exact (subIn_iff _ _).mpr ⟨[], t, by simp⟩

lemma subIn_trans {w m h : List Char} (hm : subIn m h = true) (hw : subIn w m = true) :
    subIn w h = true := by
  rw [subIn_iff] at hm hw ⊢
  obtain ⟨x, y, rfl⟩ := hm
  obtain ⟨x2, y2, rfl⟩ := hw
  exact ⟨x ++ x2, y2 ++ y, by simp⟩

lemma inStr_trans {w m h : String} (hm : inStr m h = true) (hw : inStr w m = true) :
    inStr w h = true := subIn_trans hm hw

lemma inStr_false_of {w m h : String} (hneg : inStr w h = false) (hw : inStr w m = true) :
    inStr m h = false := by
  by_contra hx
  rw [Bool.not_eq_false] at hx
  rw [inStr_trans hx hw] at hneg
  simp at hneg

lemma inStr_ne_empty {m h : String} (hm : m ≠ "") (hx : inStr m h = true) : h ≠ "" := by
  rintro rfl
  cases hmd : m.data with
  | nil =>
    apply hm
    have hme : m = ⟨m.data⟩ := rfl
    rw [hme, hmd]
  | cons a as =>
    rw [inStr, hmd] at hx
    simp [subIn, isPre] at hx

lemma subIn_cons {n : List Char} {c : Char} {rest : List Char}
    (hx : subIn n rest = true) : subIn n (c :: rest) = true := by
  rw [subIn, hx, Bool.or_true]

lemma subIn_drop {n : List Char} (k : Nat) (l : List Char)
    (hx : subIn n (l.drop k) = true) : subIn n l = true := by
  induction l generalizing k with
  | nil => simpa using hx
  | cons c rest ih =>
    cases k with
    | zero => simpa using hx
    | succ j => exact subIn_cons (ih j hx)

/-! ## The generator-meta regex can only match when `shopware` occurs -/

lemma matchLit_subIn {n lit : List Char} {k : List Char → Bool}
    (hk : ∀ l, k l = true → subIn n l = true) :
    ∀ l, matchLit lit k l = true → subIn n l = true := by
  intro l hl
  rw [matchLit] at hl
  split at hl
  · exact subIn_drop _ _ (hk _ hl)
  · exact absurd hl (by simp)

lemma matchOneOf_subIn {n : List Char} {good : List Char} {k : List Char → Bool}
    (hk : ∀ l, k l = true → subIn n l = true) :
    ∀ l, matchOneOf good k l = true → subIn n l = true := by
  intro l hl
  cases l with
  | nil => rw [matchOneOf] at hl; exact absurd hl (by simp)
  | cons c rest =>
    rw [matchOneOf, Bool.and_eq_true] at hl
    exact subIn_cons (hk _ hl.2)

lemma matchClass1_subIn {n : List Char} {bad : List Char} {k : List Char → Bool}
    (hk : ∀ l, k l = true → subIn n l = true) :
    ∀ l, matchClass1 bad k l = true → subIn n l = true := by
  intro l
  induction l with
  | nil => intro hl; rw [matchClass1] at hl; exact absurd hl (by simp)
  | cons c rest ih =>
    intro hl
    rw [matchClass1, Bool.and_eq_true, Bool.or_eq_true] at hl
    rcases hl.2 with h | h
    · exact subIn_cons (hk _ h)
    · exact subIn_cons (ih h)

lemma matchClass0_subIn {n : List Char} {bad : List Char} {k : List Char → Bool}
    (hk : ∀ l, k l = true → subIn n l = true) :
    ∀ l, matchClass0 bad k l = true → subIn n l = true := by
  intro l
  induction l with
  | nil => intro hl; rw [matchClass0] at hl; exact hk _ hl
  | cons c rest ih =>
    intro hl
    rw [matchClass0, Bool.or_eq_true] at hl
    rcases hl with h | h
    · exact hk _ h
    · rw [Bool.and_eq_true] at h
      exact subIn_cons (ih h.2)

lemma metaGenAt_subIn_shopware : ∀ l, metaGenAt l = true → subIn "shopware".data l = true := by
  unfold metaGenAt
  apply matchLit_subIn
  apply matchClass1_subIn
  apply matchLit_subIn
  apply matchOneOf_subIn
  apply matchLit_subIn
  apply matchOneOf_subIn
  apply matchClass1_subIn
  apply matchLit_subIn
  apply matchOneOf_subIn
  apply matchClass0_subIn
  intro l hl
  rw [matchLit] at hl
  split at hl
  · next hx => exact subIn_of_isPre hx
  · exact absurd hl (by simp)

lemma metaGenSearch_subIn_shopware (l : List Char) (h : metaGenSearch l = true) :
    subIn "shopware".data l = true := by
  induction l with
  | nil => exact metaGenAt_subIn_shopware [] h
  | cons c rest ih =>
    rw [metaGenSearch, Bool.or_eq_true] at h
    rcases h with h | h
    · exact metaGenAt_subIn_shopware _ h
    · exact subIn_cons (ih h)

/-! ## C7 and C10: fingerprint classifier properties -/

lemma norm_mode_functional : normMode "functional" = "functional" := rfl

/-- C7: HTML containing the WooCommerce asset marker but no cart/checkout
vocabulary, no strong transactional markers, and no other platform's
markers, classified in `functional` mode, is never `woocommerce`; it falls
through to the generic WordPress `other` result or stays `inconclusive`. -/
theorem c7_woocommerce_guard (html final_url : String) (status : Option Int) (error : String)
    (hwoo : inStr "wp-content/plugins/woocommerce" (pyLower html) = true)
    (hstrong : ∀ s ∈ strongMarkerList, inStr s (pyLower html) = false)
    (hjl1 : inStr "\"@type\":\"product\"" (pyLower html) = false)
    (hjl2 : inStr "\"@type\": \"product\"" (pyLower html) = false)
    (hweak : ∀ s ∈ weakMarkerList, inStr s (pyLower html) = false)
    (hshopify : ∀ s ∈ shopifyMarkerList, inStr s (pyLower html) = false)
    (hsw : inStr "shopware" (pyLower html) = false)
    (hbundles : inStr "/bundles/storefront" (pyLower html) = false)
    (hthemes : inStr "/themes/frontend" (pyLower html) = false)
    (hmag : ∀ s ∈ magentoMarkerList, inStr s (pyLower html) = false) :
    (fingerprint_platform_from_html html final_url status error "functional").platform ≠ "woocommerce" ∧
    ((fingerprint_platform_from_html html final_url status error "functional").platform = "other" ∨
     (fingerprint_platform_from_html html final_url status error "functional").platform = "inconclusive") := by
  have hst1 := hstrong _ (by simp [strongMarkerList] : "?add-to-cart=" ∈ strongMarkerList)
  have hst2 := hstrong _ (by simp [strongMarkerList] : "add_to_cart_button" ∈ strongMarkerList)
  have hst3 := hstrong _ (by simp [strongMarkerList] : "data-product_id" ∈ strongMarkerList)
  have hwk1 := hweak _ (by simp [weakMarkerList] : "/cart" ∈ weakMarkerList)
  have hwk2 := hweak _ (by simp [weakMarkerList] : "/checkout" ∈ weakMarkerList)
  have hwk3 := hweak _ (by simp [weakMarkerList] : "warenkorb" ∈ weakMarkerList)
  have hwk4 := hweak _ (by simp [weakMarkerList] : "kasse" ∈ weakMarkerList)
  have hwk5 := hweak _ (by simp [weakMarkerList] : "checkout" ∈ weakMarkerList)
  have hwk6 := hweak _ (by simp [weakMarkerList] : "woocommerce-cart" ∈ weakMarkerList)
  have hwk7 := hweak _ (by simp [weakMarkerList] : "woocommerce-checkout" ∈ weakMarkerList)
  have hwk8 := hweak _ (by simp [weakMarkerList] : "wc-cart-fragments" ∈ weakMarkerList)
  have hsp1 := hshopify _ (by simp [shopifyMarkerList] : "cdn.shopify.com" ∈ shopifyMarkerList)
  have hsp2 := hshopify _ (by simp [shopifyMarkerList] : "myshopify.com" ∈ shopifyMarkerList)
  have hsp3 := hshopify _ (by simp [shopifyMarkerList] : "shopify-section" ∈ shopifyMarkerList)
  have hsp4 := hshopify _ (by simp [shopifyMarkerList] : "shopify.theme" ∈ shopifyMarkerList)
  have hsp5 := hshopify _ (by simp [shopifyMarkerList] : "shopifyanalytics" ∈ shopifyMarkerList)
  have hmg1 := hmag _ (by simp [magentoMarkerList] : "magento_" ∈ magentoMarkerList)
  have hmg2 := hmag _ (by simp [magentoMarkerList] : "form_key" ∈ magentoMarkerList)
  have hmg3 := hmag _ (by simp [magentoMarkerList] : "/static/frontend/" ∈ magentoMarkerList)
  have hmg4 := hmag _ (by simp [magentoMarkerList] : "/rest/v1/" ∈ magentoMarkerList)
  have hdp1 : inStr "data-plugin-version=\"shopware" (pyLower html) = false :=
    inStr_false_of hsw (by decide)
  have hdp2 : inStr "data-plugin-version=\x27shopware" (pyLower html) = false :=
    inStr_false_of hsw (by decide)
  have hwin : inStr "window.shopware" (pyLower html) = false :=
    inStr_false_of hsw (by decide)
  have hsw1 : inStr "shopware.php" (pyLower html) = false := inStr_false_of hsw (by decide)
  have hsw3 : inStr "jquery.shopware" (pyLower html) = false := inStr_false_of hsw (by decide)
  have hsw4 : inStr "/engine/shopware" (pyLower html) = false := inStr_false_of hsw (by decide)
  have hsw5 : inStr "shopware.apps" (pyLower html) = false := inStr_false_of hsw (by decide)
  have hmeta : metaGenSearch (pyLower html).data = false := by
    by_contra hx
    rw [Bool.not_eq_false] at hx
    have := metaGenSearch_subIn_shopware _ hx
    rw [show subIn "shopware".data (pyLower html).data = inStr "shopware" (pyLower html) from rfl, hsw] at this
    simp at this
  have hne : pyLower html ≠ "" :=
    inStr_ne_empty (by decide) hwoo
  rw [fingerprint_platform_from_html, norm_mode_functional]
  rw [fp_from_html_core]
  simp only [strongMarkerList, weakMarkerList, shopifyMarkerList, wcMarkerList,
    shopware5MarkerList, magentoMarkerList, wpMarkerList,
    List.filter_cons, List.filter_nil, List.find?_cons, List.find?_nil,
    hst1, hst2, hst3, hjl1, hjl2, hwk1, hwk2, hwk3, hwk4, hwk5, hwk6, hwk7, hwk8,
    hsp1, hsp2, hsp3, hsp4, hsp5, hwoo, hdp1, hdp2, hwin, hbundles, hthemes,
    hsw, hsw1, hsw3, hsw4, hsw5, hmeta, hmg1, hmg2, hmg3, hmg4]
  simp only [Bool.false_eq_true, if_false, if_true, List.length_nil, List.length_cons,
    List.nil_append, List.append_nil, Bool.or_false, Bool.false_or]
  norm_num
  simp only [apply_ite FingerprintResult.platform]
  have key : ∀ (c : Prop) (_ : Decidable c),
      (if c then "other" else "inconclusive") ≠ "woocommerce" ∧
      ((if c then "other" else "inconclusive") = "other" ∨
       (if c then "other" else "inconclusive") = "inconclusive") := by
    intro c hc
    by_cases h : c <;> simp [h]
  rw [if_neg (by decide : ¬("not_shop" = "shop"))]
  simp only [ite_self]
  exact key _ _

/-- C7 witness: the guard theorem applied to the bare WooCommerce asset
marker as the whole page. -/
theorem c7_witness :
    (fingerprint_platform_from_html "wp-content/plugins/woocommerce" "u" none "" "functional").platform ≠ "woocommerce" ∧
    ((fingerprint_platform_from_html "wp-content/plugins/woocommerce" "u" none "" "functional").platform = "other" ∨
     (fingerprint_platform_from_html "wp-content/plugins/woocommerce" "u" none "" "functional").platform = "inconclusive") :=
  c7_woocommerce_guard "wp-content/plugins/woocommerce" "u" none ""
    (by decide) (by decide) (by decide) (by decide) (by decide) (by decide)
    (by decide) (by decide) (by decide) (by decide)

lemma sameLowered_map {a b : List Char} (h : sameLowered a b = true) :
    a.map lowerChar = b.map lowerChar := by
  induction a generalizing b with
  | nil =>
    cases b with
    | nil => rfl
    | cons y ys => simp [sameLowered] at h
  | cons x xs ih =>
    cases b with
    | nil => simp [sameLowered] at h
    | cons y ys =>
      rw [sameLowered, Bool.and_eq_true, beq_iff_eq] at h
      simp [List.map_cons, h.1, ih h.2]

/-- C10: the fingerprint classifier is case-insensitive in its HTML
argument: case variants of the HTML produce identical results, because the
classifier lower-cases its input before matching. -/
theorem c10_fingerprint_case_insensitive (h h' final_url : String) (status : Option Int)
    (error mode : String) (hcv : sameLowered h.data h'.data = true) :
    fingerprint_platform_from_html h final_url status error mode =
    fingerprint_platform_from_html h' final_url status error mode := by
  have hlow : pyLower h = pyLower h' := congrArg String.mk (sameLowered_map hcv)
  unfold fingerprint_platform_from_html
  rw [hlow]

/-- C10 witness: two case variants of a Shopify marker page classify
identically. -/
theorem c10_witness :
    fingerprint_platform_from_html "x CDN.Shopify.com y" "u" (some 200) "" "installed" =
    fingerprint_platform_from_html "x cdn.shopify.COM y" "u" (some 200) "" "installed" :=
  c10_fingerprint_case_insensitive "x CDN.Shopify.com y" "x cdn.shopify.COM y" "u" (some 200) ""
    "installed" (by decide)

/-! ## C3: the WooCommerce Store-API prober's hit condition -/

/-- C3 counterexample: an HTTP 200 response whose body is the JSON dict
`{}` — neither an array nor a dict with `products`/`items` — is still
reported as a hit (`json_other_shape`), refuting the claimed
characterisation. -/
theorem c3_counterexample_json_other_shape :
    (wc_store_api_classify (.ok "u" (some 200) "\x7b\x7d" [])).1 = true ∧
    wc_hit_per_claim (.ok "u" (some 200) "\x7b\x7d" []) = false :=
  ⟨rfl, rfl⟩

/-- C3 amended: the prober reports a hit if and only if the endpoint
responds with HTTP 200 and a non-blank body that parses as JSON of any
shape; exceptions, timeouts, non-200 statuses, blank bodies and
unparseable bodies yield no hit. -/
theorem c3_wc_hit_iff_amended (o : UrlOpenOutcome) :
    (wc_store_api_classify o).1 = true ↔
      ∃ fu st body hdrs, o = .ok fu st body hdrs ∧ st.getD 0 = 200 ∧
        pyStrip body ≠ "" ∧ (jsonLoads body).isSome := by
  cases o with
  | ok fu st body hdrs =>
    simp only [wc_store_api_classify]
    constructor
    · intro h
      by_cases hcond : (st.getD 0 ≠ 200 ∨ pyStrip body = "")
      · rw [if_pos hcond] at h
        simp at h
      · rw [if_neg hcond] at h
        push_neg at hcond
        refine ⟨fu, st, body, hdrs, rfl, hcond.1, hcond.2, ?_⟩
        rcases hj : jsonLoads body with _ | v
        · rw [hj] at h; simp at h
        · simp [hj]
    · rintro ⟨fu2, st2, body2, hdrs2, heq, h200, hbody, hsome⟩
      cases heq
      rw [if_neg (by rintro (hx | hx); exact hx h200; exact hbody hx)]
      obtain ⟨v, hv⟩ := Option.isSome_iff_exists.mp hsome
      rw [hv]
      cases v <;> simp [apply_ite Prod.fst]
  | httpError code body hdrs reason => simp [wc_store_api_classify]
  | exc n m => simp [wc_store_api_classify]

/-- C3 witness: the amended characterisation applied at a concrete 200
response carrying a JSON array. -/
theorem c3_witness :
    (wc_store_api_classify (.ok "u" (some 200) "[]" [])).1 = true :=
  (c3_wc_hit_iff_amended (.ok "u" (some 200) "[]" [])).mpr
    ⟨ "u", some 200, "[]", [], rfl, rfl, by decide, by rw [show jsonLoads "[]" = some (.jarr []) from rfl]; rfl⟩

/-! ## C4: the two HTTP fetchers on a 4xx response -/

/-- C4: on the same 403 response carrying a body, the detector's
`_fetch_html` (`local_detector.py`) discards the response's status code
and body — its generic exception handler swallows the raised `HTTPError` —
while the fingerprinting `_fetch_html` (`fingerprinting.py`) returns the
status and the lower-cased body as the claim describes. -/
theorem c4_fetcher_divergence_on_403 :
    (fetch_html envBoth403 "https://x.example").1 =
      ⟨ "https://x.example", none, "", [], "HTTPError:HTTP Error 403: Forbidden" ⟩ ∧
    (fp_fetch_html envBoth403 "https://x.example").1 =
      ⟨ "https://x.example", "captcha check required", some 403, "HTTPError:403" ⟩ :=
  ⟨rfl, rfl⟩

/-! ## C5: link discovery and the same-registrable-domain filter -/

/-- C5 counterexample: `_extract_shop_links` (`local_detector.py`) keeps a
cross-domain absolute href — the extracted candidate's registrable domain
differs from the input host's. -/
theorem c5_counterexample_cross_domain_link_kept :
    extract_shop_links "https://a.example/" "<a href=\"https://evil.example/shop\">x</a>" =
      [ "https://evil.example/shop" ] ∧
    same_reg_domain (host_from_url "https://a.example/") (host_from_url "https://evil.example/shop") = false :=
  ⟨rfl, rfl⟩

/-- C5 amended: only the older `local_detect.local_detect` filters
candidate links by registrable domain; there, every kept link with a
parseable host is on the input host's registrable domain. -/
theorem c5_amended_local_detect_filter (host : String) (links : List String) (l : String)
    (hl : l ∈ local_detect_kept_links host links) (hh : host ≠ "")
    (hlh : host_from_url l ≠ "") :
    same_reg_domain host (host_from_url l) = true := by
  rw [local_detect_kept_links] at hl
  have hp := (List.mem_filter.mp hl).2
  by_contra hx
  rw [Bool.not_eq_true] at hx
  simp [hh, hlh, hx] at hp

/-- C5 witness: the filter keeps a same-domain link, and the theorem
applies to it. -/
theorem c5_witness :
    same_reg_domain "a.example" (host_from_url "https://www.a.example/x") = true :=
  c5_amended_local_detect_filter "a.example" [ "https://www.a.example/x" ] "https://www.a.example/x"
    (by decide) (by decide) (by decide)


/-! ## C1: the DNS Shopify short-circuit -/

lemma probe_cname_empty_host (env : Env) :
    (probe_shopify_cname env "").1.shopify_cname = "" := rfl

lemma probe_cname_events (env : Env) (host : String) :
    (probe_shopify_cname env host).2 = [] ∨
    ∃ hh, (probe_shopify_cname env host).2 = [ Event.dnsLookup hh ] := by
  rw [probe_shopify_cname]
  split
  · left; rfl
  · cases env.nslookup (stripDots (pyStrip host)) <;> exact Or.inr ⟨_, rfl⟩

/-- C1: whenever the DNS prober reports a non-empty Shopify CNAME for the
input's host, `detect_platform_local` returns `shopify` with high
confidence and evidence tier A, and its probe trail contains no HTTP fetch
and no Playwright fetch — only the DNS lookup ran. -/
theorem c1_dns_short_circuit (cfg : Config) (env : Env) (url : String)
    (hdns : (probe_shopify_cname env (host_from_url (normalize_url url))).1.shopify_cname ≠ "") :
    (detect_platform_local cfg env url).1.model_result.final_platform = "shopify" ∧
    (detect_platform_local cfg env url).1.model_result.confidence = "high" ∧
    (detect_platform_local cfg env url).1.model_result.evidence_tier = "A" ∧
    ∀ u : String, Event.httpGet u ∉ (detect_platform_local cfg env url).2 ∧
                  Event.pwFetch u ∉ (detect_platform_local cfg env url).2 := by
  have hhost : host_from_url (normalize_url url) ≠ "" := by
    intro h0
    apply hdns
    rw [h0]
    exact probe_cname_empty_host env
  simp only [detect_platform_local, detect_platform_local_aux, step1_dns]
  rw [if_pos ⟨hhost, hdns⟩]
  refine ⟨rfl, rfl, rfl, ?_⟩
  intro u
  rcases probe_cname_events env (host_from_url (normalize_url url)) with h | ⟨hh, h⟩ <;>
    rw [h] <;> simp

/-- C1 witness: the short-circuit theorem applied to a concrete
environment whose nslookup output names `shops.myshopify.com.`. -/
theorem c1_witness :
    (detect_platform_local {} envDnsHit "www.x.example").1.model_result.final_platform = "shopify" ∧
    (detect_platform_local {} envDnsHit "www.x.example").1.model_result.confidence = "high" ∧
    (detect_platform_local {} envDnsHit "www.x.example").1.model_result.evidence_tier = "A" ∧
    ∀ u : String, Event.httpGet u ∉ (detect_platform_local {} envDnsHit "www.x.example").2 ∧
                  Event.pwFetch u ∉ (detect_platform_local {} envDnsHit "www.x.example").2 :=
  c1_dns_short_circuit {} envDnsHit "www.x.example" (by decide)

/-! ## C2: the confidence/evidence-tier pairing invariant, stage by stage -/

lemma pinv_unknown (iu : String) : pairing_invariant (unknownMR iu) := by
  refine ⟨fun h => ?_, fun _ => rfl⟩
  exact absurd (show ("C" : String) = "A" from h) (by decide)

lemma pinv_mk (iu p : String) (sig : List String) (sp conf lbl reas : String)
    (hp : p ≠ "unknown") : pairing_invariant (mk_model_result iu p sig sp conf lbl reas) := by
  refine ⟨?_, ?_⟩
  · intro htier
    by_cases hc : conf = "high" ∨ conf = "medium"
    · exact hc
    · have h2 : (if conf = "high" ∨ conf = "medium" then "A" else "C") = ("A" : String) := htier
      rw [if_neg hc] at h2
      exact absurd h2 (by decide)
  · intro hplat
    exact absurd (show p = "unknown" from hplat) hp

lemma pinv_lit (iu p sp lbl : String) (sig : List String) (reas : String) (hp : p ≠ "unknown") :
    pairing_invariant (ModelResult.mk iu p sp lbl "high" "A" sig reas) :=
  ⟨fun _ => Or.inl rfl, fun h => absurd h hp⟩

lemma isNamed_ne_unknown {p : String} (h : isNamedPlatform p = true) : p ≠ "unknown" := by
  rintro rfl
  exact absurd h (by decide)

lemma link_loop_inv (env : Env) (mode iu : String) (links : List String) (mr : ModelResult)
    (h : (link_loop env mode iu links).result = some mr) : pairing_invariant mr := by
  induction links with
  | nil => simp [link_loop] at h
  | cons l rest ih =>
    simp only [link_loop] at h
    split at h
    · next hn =>
      cases Option.some.inj h
      exact pinv_mk _ _ _ _ _ _ _ (isNamed_ne_unknown hn)
    · exact ih h

lemma path_loop_inv (env : Env) (mode iu : String) (cands : List String) (mr : ModelResult)
    (h : (path_loop env mode iu cands).result = some mr) : pairing_invariant mr := by
  induction cands with
  | nil => simp [path_loop] at h
  | cons l rest ih =>
    simp only [path_loop] at h
    split at h
    · next hn =>
      cases Option.some.inj h
      exact pinv_mk _ _ _ _ _ _ _ (isNamed_ne_unknown hn)
    · exact ih h

lemma sub_loop_inv (env : Env) (mode iu : String) (subs : List String) (mr : ModelResult)
    (h : (sub_loop env mode iu subs).result = some mr) : pairing_invariant mr := by
  induction subs with
  | nil => simp [sub_loop] at h
  | cons l rest ih =>
    simp only [sub_loop] at h
    split at h
    · next hn =>
      cases Option.some.inj h
      exact pinv_mk _ _ _ _ _ _ _ (isNamed_ne_unknown hn)
    · exact ih h

lemma step6_inv (iu : String) (dbg : Debug) (ev : List Event) :
    pairing_invariant (step6_unknown iu dbg ev).1.model_result := pinv_unknown iu

lemma step5c_inv (cfg : Config) (env : Env) (mode iu bf : String) (dbg : Debug) (ev : List Event) :
    pairing_invariant (step5c_pw_unknown cfg env mode iu bf dbg ev).1.model_result := by
  simp only [step5c_pw_unknown]
  split
  · split
    · exact step6_inv _ _ _
    · split
      · split
        · next hn => exact pinv_mk _ _ _ _ _ _ _ (isNamed_ne_unknown hn)
        · exact step6_inv _ _ _
      · exact step6_inv _ _ _
  · exact step6_inv _ _ _

lemma step5b_inv (cfg : Config) (env : Env) (mode iu bf : String) (tent : Option ModelResult)
    (dbg : Debug) (ev : List Event)
    (ht : ∀ mr, tent = some mr → pairing_invariant mr) :
    pairing_invariant (step5b_tentative cfg env mode iu bf tent dbg ev).1.model_result := by
  cases tent with
  | none =>
    simp only [step5b_tentative]
    exact step5c_inv _ _ _ _ _ _ _
  | some mr =>
    simp only [step5b_tentative]
    exact ht mr rfl

lemma step5_go_inv (cfg : Config) (env : Env) (mode iu host bf : String)
    (tent : Option ModelResult) (dbg : Debug) (ev : List Event) (r : LoopOut)
    (hr : ∀ mr, r.result = some mr → pairing_invariant mr)
    (ht : ∀ mr, tent = some mr → pairing_invariant mr) :
    pairing_invariant (step5_go cfg env mode iu host bf tent dbg ev r).1.model_result := by
  cases hq : r.result with
  | some mr =>
    simp only [step5_go, hq]
    exact hr mr hq
  | none =>
    simp only [step5_go, hq]
    exact step5b_inv _ _ _ _ _ _ _ _ ht

lemma step5_inv (cfg : Config) (env : Env) (mode iu host bf : String) (tent : Option ModelResult)
    (dbg : Debug) (ev : List Event)
    (ht : ∀ mr, tent = some mr → pairing_invariant mr) :
    pairing_invariant (step5_subdomains cfg env mode iu host bf tent dbg ev).1.model_result := by
  rw [step5_subdomains]
  exact step5_go_inv _ _ _ _ _ _ _ _ _ _ (fun mr h => sub_loop_inv _ _ _ _ _ h) ht

lemma step4b_go_inv (cfg : Config) (env : Env) (mode iu host bf : String)
    (tent : Option ModelResult) (dbg : Debug) (ev : List Event) (r : LoopOut)
    (hr : ∀ mr, r.result = some mr → pairing_invariant mr)
    (ht : ∀ mr, tent = some mr → pairing_invariant mr) :
    pairing_invariant (step4b_go cfg env mode iu host bf tent dbg ev r).1.model_result := by
  cases hq : r.result with
  | some mr =>
    simp only [step4b_go, hq]
    exact hr mr hq
  | none =>
    simp only [step4b_go, hq]
    exact step5_inv _ _ _ _ _ _ _ _ _ ht

lemma step4b_inv (cfg : Config) (env : Env) (mode iu host bf : String) (sr : List String)
    (tent : Option ModelResult) (dbg : Debug) (ev : List Event)
    (ht : ∀ mr, tent = some mr → pairing_invariant mr) :
    pairing_invariant (step4b_paths cfg env mode iu host bf sr tent dbg ev).1.model_result := by
  rw [step4b_paths]
  split
  · split
    · exact step4b_go_inv _ _ _ _ _ _ _ _ _ _ (fun mr h => path_loop_inv _ _ _ _ _ h) ht
    · exact step5_inv _ _ _ _ _ _ _ _ _ ht
  · exact step5_inv _ _ _ _ _ _ _ _ _ ht

lemma step4_go_inv (cfg : Config) (env : Env) (mode iu host bf : String) (sr : List String)
    (tent : Option ModelResult) (dbg : Debug) (ev : List Event) (r : LoopOut)
    (hr : ∀ mr, r.result = some mr → pairing_invariant mr)
    (ht : ∀ mr, tent = some mr → pairing_invariant mr) :
    pairing_invariant (step4_go cfg env mode iu host bf sr tent dbg ev r).1.model_result := by
  cases hq : r.result with
  | some mr =>
    simp only [step4_go, hq]
    exact hr mr hq
  | none =>
    simp only [step4_go, hq]
    exact step4b_inv _ _ _ _ _ _ _ _ _ _ ht

lemma step4_inv (cfg : Config) (env : Env) (mode iu host bf bh : String) (sr : List String)
    (tent : Option ModelResult) (dbg : Debug) (ev : List Event)
    (ht : ∀ mr, tent = some mr → pairing_invariant mr) :
    pairing_invariant (step4_links cfg env mode iu host bf bh sr tent dbg ev).1.model_result := by
  rw [step4_links]
  exact step4_go_inv _ _ _ _ _ _ _ _ _ _ _ (fun mr h => link_loop_inv _ _ _ _ _ h) ht

lemma step3b_inv (cfg : Config) (env : Env) (mode iu host bf bh : String) (sr : List String)
    (fp0 : FingerprintResult) (tent : Option ModelResult) (dbg : Debug) (ev : List Event)
    (ht : ∀ mr, tent = some mr → pairing_invariant mr) :
    pairing_invariant (step3b_wc cfg env mode iu host bf bh sr fp0 tent dbg ev).1.model_result := by
  simp only [step3b_wc]
  split
  · split
    · exact pinv_mk _ _ _ _ _ _ _ (by decide)
    · exact step4_inv _ _ _ _ _ _ _ _ _ _ _ ht
  · exact step4_inv _ _ _ _ _ _ _ _ _ _ _ ht

lemma step3_inv (cfg : Config) (env : Env) (mode iu host bf : String) (bs : Option Int)
    (bh berr : String) (sr : List String) (dbg : Debug) (ev : List Event) :
    pairing_invariant (step3_fingerprint cfg env mode iu host bf bs bh berr sr dbg ev).1.model_result := by
  simp only [step3_fingerprint]
  split
  · split
    · next hn => exact pinv_mk _ _ _ _ _ _ _ (isNamed_ne_unknown hn)
    · apply step3b_inv
      intro mr hmr
      split at hmr
      · cases Option.some.inj hmr
        exact pinv_mk _ _ _ _ _ _ _ (by decide)
      · exact Option.noConfusion hmr
  · split
    · next hn => exact pinv_mk _ _ _ _ _ _ _ (isNamed_ne_unknown hn)
    · apply step3b_inv
      intro mr hmr
      split at hmr
      · cases Option.some.inj hmr
        exact pinv_mk _ _ _ _ _ _ _ (by decide)
      · exact Option.noConfusion hmr

lemma step2c_inv (cfg : Config) (env : Env) (mode iu host bf : String) (bs : Option Int)
    (bh : String) (bhdrs : List (String × String)) (berr : String) (sr : List String)
    (dbg : Debug) (ev : List Event) :
    pairing_invariant (step2c_headers cfg env mode iu host bf bs bh bhdrs berr sr dbg ev).1.model_result := by
  simp only [step2c_headers]
  split
  · exact pinv_lit _ _ _ _ _ _ (by decide)
  · split
    · exact pinv_lit _ _ _ _ _ _ (by decide)
    · exact step3_inv _ _ _ _ _ _ _ _ _ _ _ _

lemma step2b_inv (cfg : Config) (env : Env) (mode iu host bf : String) (bs : Option Int)
    (bh : String) (bhdrs : List (String × String)) (berr : String) (sr : List String)
    (dbg : Debug) (ev : List Event) :
    pairing_invariant (step2b_pw_blocked cfg env mode iu host bf bs bh bhdrs berr sr dbg ev).1.model_result := by
  simp only [step2b_pw_blocked]
  split
  · split
    · split
      · next hn => exact pinv_mk _ _ _ _ _ _ _ (isNamed_ne_unknown hn)
      · exact step2c_inv _ _ _ _ _ _ _ _ _ _ _ _ _
    · exact step2c_inv _ _ _ _ _ _ _ _ _ _ _ _ _
  · exact step2c_inv _ _ _ _ _ _ _ _ _ _ _ _ _

lemma step2_inv (cfg : Config) (env : Env) (mode iu host : String) (dbg : Debug) (ev : List Event) :
    pairing_invariant (step2_base_fetch cfg env mode iu host dbg ev).1.model_result := by
  simp only [step2_base_fetch]
  exact step2b_inv _ _ _ _ _ _ _ _ _ _ _ _ _

lemma step1c_inv (cfg : Config) (env : Env) (mode iu host : String) (dbg : Debug) (ev : List Event) :
    pairing_invariant (step1c_shopware_api cfg env mode iu host dbg ev).1.model_result := by
  simp only [step1c_shopware_api]
  split
  · split
    · exact pinv_lit _ _ _ _ _ _ (by decide)
    · exact step2_inv _ _ _ _ _ _ _
  · exact step2_inv _ _ _ _ _ _ _

lemma step1b_inv (cfg : Config) (env : Env) (mode iu host : String) (dbg : Debug) (ev : List Event) :
    pairing_invariant (step1b_cart_js cfg env mode iu host dbg ev).1.model_result := by
  simp only [step1b_cart_js]
  split
  · split
    · exact pinv_lit _ _ _ _ _ _ (by decide)
    · exact step1c_inv _ _ _ _ _ _ _
  · exact step1c_inv _ _ _ _ _ _ _

lemma step1_inv (cfg : Config) (env : Env) (mode iu host : String) (dbg : Debug) (ev : List Event) :
    pairing_invariant (step1_dns cfg env mode iu host dbg ev).1.model_result := by
  simp only [step1_dns]
  split
  · exact pinv_lit _ _ _ _ _ _ (by decide)
  · exact step1b_inv _ _ _ _ _ _ _

/-- C2: for every configuration, environment and input URL, the
model_result returned by `detect_platform_local` satisfies the pairing
invariant: evidence tier A implies confidence high or medium, and final
platform `unknown` implies confidence low. -/
theorem c2_pairing_invariant (cfg : Config) (env : Env) (url : String) :
    pairing_invariant (detect_platform_local cfg env url).1.model_result := by
  rw [detect_platform_local, detect_platform_local_aux]
  exact step1_inv _ _ _ _ _ _ _

/-- C2 witness: the pairing invariant at a concrete run. -/
theorem c2_witness :
    pairing_invariant (detect_platform_local {} envDnsHit "www.x.example").1.model_result :=
  c2_pairing_invariant {} envDnsHit "www.x.example"


/-! ## C6: sticky 403-captcha runs end in the terminal unknown result -/

lemma dw_nil_all (p : Char → Bool) (l : List Char) (h : l.dropWhile p = []) :
    ∀ x ∈ l, p x = true := by
  induction l with
  | nil => intro x hx; exact absurd hx (List.not_mem_nil x)
  | cons a t ih =>
    rw [List.dropWhile_cons] at h
    by_cases hp : p a = true
    · rw [if_pos hp] at h
      intro x hx
      rcases List.mem_cons.mp hx with rfl | hx
      · exact hp
      · exact ih h x hx
    · rw [if_neg hp] at h
      exact absurd h (List.cons_ne_nil _ _)

lemma stripList_ne_nil_of_head (p : Char → Bool) (c : Char) (t : List Char) (hc : p c = false) :
    stripList p (c :: t) ≠ [] := by
  intro h
  rw [stripList, List.dropWhile_cons] at h
  rw [hc] at h
  simp only [Bool.false_eq_true, if_false] at h
  rw [dropTrail] at h
  have h2 := congrArg List.reverse h
  rw [List.reverse_reverse] at h2
  have h4 : ((c :: t).reverse).dropWhile p = [] := by simpa using h2
  have h3 : p c = true := dw_nil_all p _ h4 c (by simp)
  rw [hc] at h3
  exact Bool.noConfusion h3

lemma pyStrip_ne_of_head (s : String) (c : Char) (t : List Char) (hs : s.data = c :: t)
    (hc : isPySpace c = false) : pyStrip s ≠ "" := by
  intro h
  have hd := congrArg String.data h
  rw [show (pyStrip s).data = stripList isPySpace s.data from rfl, hs] at hd
  exact stripList_ne_nil_of_head isPySpace c t hc hd

lemma normalize_sub_ne (sh : String) : normalize_url ("https://" ++ sh ++ "/") ≠ "" := by
  have hstrip : pyStrip ("https://" ++ sh ++ "/") ≠ "" :=
    pyStrip_ne_of_head _ 'h' (("ttps://".data ++ sh.data) ++ "/".data)
      (by rw [str_append_data, str_append_data]; rfl) (by decide)
  rw [normalize_url, if_neg hstrip]
  split
  · exact hstrip
  · exact https_append_ne _

lemma append_colon_ne (n m : String) : n ++ ":" ++ m ≠ "" := by
  intro h
  have h2 := congrArg String.data h
  rw [str_append_data, str_append_data] at h2
  simp [String.data] at h2

lemma httpErrorPrefix_ne (x : String) : "HTTPError:" ++ x ≠ "" := by
  intro h
  have h2 := congrArg String.data h
  rw [str_append_data] at h2
  simp [String.data] at h2

lemma orElseStr_self (a : String) : orElseStr a a = a := by
  rw [orElseStr]
  exact ite_self a

lemma sticky_fetch_error (e : String) (he : e ≠ "") :
    compute_sticky_reasons none "" e = [ "fetch_error" ] := by
  rw [compute_sticky_reasons, if_pos he]
  rfl

lemma fp_fetch_exc (env : Env) (url n m : String)
    (hu : normalize_url url ≠ "") (hx : env.fpHttp (normalize_url url) = .exc n m) :
    fp_fetch_html env url =
      (⟨normalize_url url, "", none, n ++ ":" ++ m⟩, [ Event.httpGet (normalize_url url) ]) := by
  simp only [fp_fetch_html]
  rw [if_neg hu, hx]

lemma fingerprint_exc (env : Env) (url mode n m : String)
    (hu : normalize_url url ≠ "") (hx : env.fpHttp (normalize_url url) = .exc n m) :
    (fingerprint_platform env url mode).1 =
      ⟨ "error", "low", [], "unclear", normalize_url url, none, n ++ ":" ++ m ⟩ := by
  simp only [fingerprint_platform, fp_fetch_exc env url n m hu hx]
  rw [if_pos ⟨append_colon_ne n m, trivial⟩]

lemma sub_loop_none (env : Env) (mode iu : String)
    (hfp : ∀ u, ∃ n m, env.fpHttp u = .exc n m) :
    ∀ subs : List String, (sub_loop env mode iu subs).result = none := by
  intro subs
  induction subs with
  | nil => rfl
  | cons sh rest ih =>
    obtain ⟨n, m, hx⟩ := hfp (normalize_url ("https://" ++ sh ++ "/"))
    have hplat := fingerprint_exc env ("https://" ++ sh ++ "/") mode n m (normalize_sub_ne sh) hx
    simp only [sub_loop, hplat]
    rw [if_neg (by decide : ¬(isNamedPlatform "error" = true))]
    exact ih

lemma step5c_unknown (cfg : Config) (env : Env) (mode iu bf : String) (dbg : Debug)
    (ev : List Event) (hpw : ∀ u, (env.pw u).ok = false) :
    (step5c_pw_unknown cfg env mode iu bf dbg ev).1.model_result = unknownMR iu := by
  simp only [step5c_pw_unknown]
  split
  · split
    · rfl
    · split
      · next hcon =>
        exact absurd hcon.1 (by rw [hpw (orElseStr bf iu)]; exact Bool.false_ne_true)
      · rfl
  · rfl

lemma step5b_unknown (cfg : Config) (env : Env) (mode iu bf : String) (dbg : Debug)
    (ev : List Event) (hpw : ∀ u, (env.pw u).ok = false) :
    (step5b_tentative cfg env mode iu bf none dbg ev).1.model_result = unknownMR iu := by
  simp only [step5b_tentative]
  exact step5c_unknown cfg env mode iu bf dbg ev hpw

lemma step5_unknown (cfg : Config) (env : Env) (mode iu host bf : String) (dbg : Debug)
    (ev : List Event) (hfp : ∀ u, ∃ n m, env.fpHttp u = .exc n m)
    (hpw : ∀ u, (env.pw u).ok = false) :
    (step5_subdomains cfg env mode iu host bf none dbg ev).1.model_result = unknownMR iu := by
  rw [step5_subdomains]
  have hres := sub_loop_none env mode iu hfp (subdomain_candidates host)
  simp only [step5_go, hres]
  exact step5b_unknown cfg env mode iu bf _ _ hpw

lemma step4b_unknown (cfg : Config) (env : Env) (mode iu host bf : String) (sr : List String)
    (dbg : Debug) (ev : List Event) (hsr : sr ≠ [])
    (hfp : ∀ u, ∃ n m, env.fpHttp u = .exc n m)
    (hpw : ∀ u, (env.pw u).ok = false) :
    (step4b_paths cfg env mode iu host bf sr none dbg ev).1.model_result = unknownMR iu := by
  rw [step4b_paths, if_neg hsr]
  exact step5_unknown cfg env mode iu host bf dbg ev hfp hpw

lemma step4_unknown (cfg : Config) (env : Env) (mode iu host bf : String) (sr : List String)
    (dbg : Debug) (ev : List Event) (hsr : sr ≠ [])
    (hfp : ∀ u, ∃ n m, env.fpHttp u = .exc n m)
    (hpw : ∀ u, (env.pw u).ok = false) :
    (step4_links cfg env mode iu host bf "" sr none dbg ev).1.model_result = unknownMR iu := by
  rw [step4_links]
  have hex : extract_shop_links (orElseStr bf iu) "" = [] := rfl
  rw [hex]
  simp only [link_loop, step4_go]
  exact step4b_unknown cfg env mode iu host bf sr _ _ hsr hfp hpw

lemma step3b_unknown (cfg : Config) (env : Env) (mode iu host bf : String) (sr : List String)
    (fp0 : FingerprintResult) (dbg : Debug) (ev : List Event)
    (hsig : fp0.signals = []) (hsr : sr ≠ [])
    (hfp : ∀ u, ∃ n m, env.fpHttp u = .exc n m)
    (hpw : ∀ u, (env.pw u).ok = false) :
    (step3b_wc cfg env mode iu host bf "" sr fp0 none dbg ev).1.model_result = unknownMR iu := by
  rw [step3b_wc]
  split
  · next hcon =>
    exact absurd hcon.2.2.2 (by rw [hsig]; exact Bool.false_ne_true)
  · exact step4_unknown cfg env mode iu host bf sr _ _ hsr hfp hpw

lemma step3_unknown (cfg : Config) (env : Env) (mode iu host bf : String) (bs : Option Int)
    (berr : String) (sr : List String) (dbg : Debug) (ev : List Event)
    (hbf : orElseStr bf iu = iu) (hiu : normalize_url iu = iu) (hne : iu ≠ "")
    (hsr : sr ≠ [])
    (hfp : ∀ u, ∃ n m, env.fpHttp u = .exc n m)
    (hpw : ∀ u, (env.pw u).ok = false) :
    (step3_fingerprint cfg env mode iu host bf bs "" berr sr dbg ev).1.model_result = unknownMR iu := by
  obtain ⟨n, m, hx⟩ := hfp iu
  have hfx : env.fpHttp (normalize_url iu) = .exc n m := by rw [hiu]; exact hx
  have hval := fingerprint_exc env iu mode n m (by rw [hiu]; exact hne) hfx
  simp only [step3_fingerprint, hbf]
  rw [if_neg (by decide : ¬(("" : String) ≠ ""))]
  simp only [hval]
  rw [if_neg (by decide : ¬(isNamedPlatform "error" = true))]
  rw [if_neg (by decide : ¬(("error" : String) = "other"))]
  exact step3b_unknown cfg env mode iu host bf sr _ _ _ rfl hsr hfp hpw

lemma step2c_unknown (cfg : Config) (env : Env) (mode iu host bf : String) (berr : String)
    (sr : List String) (dbg : Debug) (ev : List Event)
    (hbf : orElseStr bf iu = iu) (hiu : normalize_url iu = iu) (hne : iu ≠ "")
    (hsr : sr ≠ [])
    (hfp : ∀ u, ∃ n m, env.fpHttp u = .exc n m)
    (hpw : ∀ u, (env.pw u).ok = false) :
    (step2c_headers cfg env mode iu host bf none "" [] berr sr dbg ev).1.model_result = unknownMR iu := by
  simp only [step2c_headers]
  split
  · next hcon => exact absurd hcon (by decide)
  · split
    · next hcon => exact absurd hcon (by decide)
    · exact step3_unknown cfg env mode iu host bf none berr sr dbg ev hbf hiu hne hsr hfp hpw

lemma step2b_unknown (cfg : Config) (env : Env) (mode iu host bf : String) (berr : String)
    (sr : List String) (dbg : Debug) (ev : List Event)
    (hbf : orElseStr bf iu = iu) (hiu : normalize_url iu = iu) (hne : iu ≠ "")
    (hsr : sr ≠ [])
    (hfp : ∀ u, ∃ n m, env.fpHttp u = .exc n m)
    (hpw : ∀ u, (env.pw u).ok = false) :
    (step2b_pw_blocked cfg env mode iu host bf none "" [] berr sr dbg ev).1.model_result = unknownMR iu := by
  simp only [step2b_pw_blocked]
  split
  · split
    · next hcon =>
      exact absurd hcon.1 (by rw [hpw (orElseStr bf iu)]; exact Bool.false_ne_true)
    · exact step2c_unknown cfg env mode iu host bf berr sr _ _ hbf hiu hne hsr hfp hpw
  · exact step2c_unknown cfg env mode iu host bf berr sr _ _ hbf hiu hne hsr hfp hpw

lemma step2_unknown (cfg : Config) (env : Env) (mode iu host : String) (dbg : Debug)
    (ev : List Event) (body : String) (hdrs : List (String × String)) (reason : String)
    (hiu : normalize_url iu = iu) (hne : iu ≠ "")
    (hx : env.http iu = .httpError 403 body hdrs reason)
    (hfp : ∀ u, ∃ n m, env.fpHttp u = .exc n m)
    (hpw : ∀ u, (env.pw u).ok = false) :
    (step2_base_fetch cfg env mode iu host dbg ev).1.model_result = unknownMR iu := by
  have hfetch : fetch_html env iu =
      (⟨iu, none, "", [], "HTTPError:" ++ httpErrorStr 403 reason⟩, [ Event.httpGet iu ]) := by
    simp only [fetch_html, hiu]
    rw [if_neg hne, hx]
  simp only [step2_base_fetch, hfetch]
  have hst : compute_sticky_reasons none "" ("HTTPError:" ++ httpErrorStr 403 reason)
      = [ "fetch_error" ] := sticky_fetch_error _ (httpErrorPrefix_ne _)
  rw [hst]
  exact step2b_unknown cfg env mode iu host iu _ _ _ _ (orElseStr_self iu) hiu hne
    (by decide) hfp hpw

lemma step1c_unknown (cfg : Config) (env : Env) (mode iu host : String) (dbg : Debug)
    (ev : List Event) (body : String) (hdrs : List (String × String)) (reason : String)
    (hsw : (probe_shopware_store_api_context env host).1.1 = false)
    (hiu : normalize_url iu = iu) (hne : iu ≠ "")
    (hx : env.http iu = .httpError 403 body hdrs reason)
    (hfp : ∀ u, ∃ n m, env.fpHttp u = .exc n m)
    (hpw : ∀ u, (env.pw u).ok = false) :
    (step1c_shopware_api cfg env mode iu host dbg ev).1.model_result = unknownMR iu := by
  simp only [step1c_shopware_api]
  split
  · split
    · next hcon =>
      rw [hsw] at hcon
      exact Bool.noConfusion hcon
    · exact step2_unknown cfg env mode iu host _ _ body hdrs reason hiu hne hx hfp hpw
  · exact step2_unknown cfg env mode iu host _ _ body hdrs reason hiu hne hx hfp hpw

lemma step1b_unknown (cfg : Config) (env : Env) (mode iu host : String) (dbg : Debug)
    (ev : List Event) (body : String) (hdrs : List (String × String)) (reason : String)
    (hcart : (probe_shopify_cart_js env host).1.1 = false)
    (hsw : (probe_shopware_store_api_context env host).1.1 = false)
    (hiu : normalize_url iu = iu) (hne : iu ≠ "")
    (hx : env.http iu = .httpError 403 body hdrs reason)
    (hfp : ∀ u, ∃ n m, env.fpHttp u = .exc n m)
    (hpw : ∀ u, (env.pw u).ok = false) :
    (step1b_cart_js cfg env mode iu host dbg ev).1.model_result = unknownMR iu := by
  simp only [step1b_cart_js]
  split
  · split
    · next hcon =>
      rw [hcart] at hcon
      exact Bool.noConfusion hcon
    · exact step1c_unknown cfg env mode iu host _ _ body hdrs reason hsw hiu hne hx hfp hpw
  · exact step1c_unknown cfg env mode iu host _ _ body hdrs reason hsw hiu hne hx hfp hpw

lemma step1_unknown (cfg : Config) (env : Env) (mode iu host : String) (dbg : Debug)
    (ev : List Event) (body : String) (hdrs : List (String × String)) (reason : String)
    (hdns : (probe_shopify_cname env host).1.shopify_cname = "")
    (hcart : (probe_shopify_cart_js env host).1.1 = false)
    (hsw : (probe_shopware_store_api_context env host).1.1 = false)
    (hiu : normalize_url iu = iu) (hne : iu ≠ "")
    (hx : env.http iu = .httpError 403 body hdrs reason)
    (hfp : ∀ u, ∃ n m, env.fpHttp u = .exc n m)
    (hpw : ∀ u, (env.pw u).ok = false) :
    (step1_dns cfg env mode iu host dbg ev).1.model_result = unknownMR iu := by
  simp only [step1_dns]
  split
  · next hcon => exact absurd hdns hcon.2
  · exact step1b_unknown cfg env mode iu host _ _ body hdrs reason hcart hsw hiu hne hx hfp hpw

/-- C6: a detection call whose homepage fetch yields HTTP 403 with a
captcha body, and where no other probe produces evidence (DNS, cart.js and
Store-API probes negative, fingerprint fetches raise, Playwright fails),
returns the terminal unknown/unclear/low result — in particular it is
never `final_platform="unknown"` together with `shop_presence="not_shop"`
at high or medium confidence. -/
theorem c6_sticky_suppression (cfg : Config) (env : Env) (url : String)
    (body : String) (hdrs : List (String × String)) (reason : String)
    (hne : normalize_url url ≠ "")
    (hbase : env.http (normalize_url url) = .httpError 403 body hdrs reason)
    (hcaptcha : inStr "captcha" (pyLower body) = true)
    (hdns : (probe_shopify_cname env (host_from_url (normalize_url url))).1.shopify_cname = "")
    (hcart : (probe_shopify_cart_js env (host_from_url (normalize_url url))).1.1 = false)
    (hsw : (probe_shopware_store_api_context env (host_from_url (normalize_url url))).1.1 = false)
    (hfp : ∀ u, ∃ n m, env.fpHttp u = .exc n m)
    (hpw : ∀ u, (env.pw u).ok = false) :
    (detect_platform_local cfg env url).1.model_result = unknownMR (normalize_url url) ∧
    ¬((detect_platform_local cfg env url).1.model_result.final_platform = "unknown" ∧
      (detect_platform_local cfg env url).1.model_result.shop_presence = "not_shop" ∧
      ((detect_platform_local cfg env url).1.model_result.confidence = "high" ∨
       (detect_platform_local cfg env url).1.model_result.confidence = "medium")) := by
  have hmain : (detect_platform_local cfg env url).1.model_result
      = unknownMR (normalize_url url) := by
    rw [detect_platform_local, detect_platform_local_aux]
    exact step1_unknown cfg env _ _ _ _ _ body hdrs reason hdns hcart hsw
      (normalize_url_idem url) hne hbase hfp hpw
  refine ⟨hmain, ?_⟩
  rw [hmain]
  intro hcon
  have h2 : ("unclear" : String) = "not_shop" := hcon.2.1
  exact absurd h2 (by decide)

/-- C6 witness: a concrete environment whose homepage transport always
answers 403 with a captcha body and whose other probes all fail. -/
theorem c6_witness :
    (detect_platform_local {} envCaptcha403 "ex.example").1.model_result
      = unknownMR (normalize_url "ex.example") ∧
    ¬((detect_platform_local {} envCaptcha403 "ex.example").1.model_result.final_platform = "unknown" ∧
      (detect_platform_local {} envCaptcha403 "ex.example").1.model_result.shop_presence = "not_shop" ∧
      ((detect_platform_local {} envCaptcha403 "ex.example").1.model_result.confidence = "high" ∨
       (detect_platform_local {} envCaptcha403 "ex.example").1.model_result.confidence = "medium")) :=
  c6_sticky_suppression {} envCaptcha403 "ex.example"
    "please solve this captcha to continue" [] "Forbidden"
    (by decide) rfl (by decide) rfl rfl rfl
    (fun _ => ⟨ "URLError", "unreachable", rfl⟩) (fun _ => rfl)


/-! ## C8: what the recorded debug contents can and cannot influence -/

lemma ni_5c (cfg : Config) (env : Env) (mode iu bf : String) (d1 d2 : Debug) (ev : List Event)
    (hp : d1.playwright_fetch.isSome = d2.playwright_fetch.isSome) :
    (step5c_pw_unknown cfg env mode iu bf d1 ev).1.model_result
      = (step5c_pw_unknown cfg env mode iu bf d2 ev).1.model_result := by
  simp only [step5c_pw_unknown, hp]
  split
  · split
    · rfl
    · split
      · split
        · rfl
        · rfl
      · rfl
  · rfl

lemma ni_5b (cfg : Config) (env : Env) (mode iu bf : String) (tent : Option ModelResult)
    (d1 d2 : Debug) (ev : List Event)
    (hp : d1.playwright_fetch.isSome = d2.playwright_fetch.isSome) :
    (step5b_tentative cfg env mode iu bf tent d1 ev).1.model_result
      = (step5b_tentative cfg env mode iu bf tent d2 ev).1.model_result := by
  cases tent with
  | some mr => rfl
  | none =>
    simp only [step5b_tentative]
    exact ni_5c cfg env mode iu bf d1 d2 ev hp

lemma ni_go5 (cfg : Config) (env : Env) (mode iu host bf : String) (tent : Option ModelResult)
    (d1 d2 : Debug) (ev : List Event) (r : LoopOut)
    (hp : d1.playwright_fetch.isSome = d2.playwright_fetch.isSome) :
    (step5_go cfg env mode iu host bf tent d1 ev r).1.model_result
      = (step5_go cfg env mode iu host bf tent d2 ev r).1.model_result := by
  cases hq : r.result with
  | some mr => simp only [step5_go, hq]
  | none =>
    simp only [step5_go, hq]
    exact ni_5b _ _ _ _ _ _ _ _ _ hp

lemma ni_5 (cfg : Config) (env : Env) (mode iu host bf : String) (tent : Option ModelResult)
    (d1 d2 : Debug) (ev : List Event)
    (hp : d1.playwright_fetch.isSome = d2.playwright_fetch.isSome) :
    (step5_subdomains cfg env mode iu host bf tent d1 ev).1.model_result
      = (step5_subdomains cfg env mode iu host bf tent d2 ev).1.model_result := by
  simp only [step5_subdomains]
  exact ni_go5 _ _ _ _ _ _ _ _ _ _ _ hp

lemma ni_go4b (cfg : Config) (env : Env) (mode iu host bf : String) (tent : Option ModelResult)
    (d1 d2 : Debug) (ev : List Event) (r : LoopOut)
    (hp : d1.playwright_fetch.isSome = d2.playwright_fetch.isSome) :
    (step4b_go cfg env mode iu host bf tent d1 ev r).1.model_result
      = (step4b_go cfg env mode iu host bf tent d2 ev r).1.model_result := by
  cases hq : r.result with
  | some mr => simp only [step4b_go, hq]
  | none =>
    simp only [step4b_go, hq]
    exact ni_5 _ _ _ _ _ _ _ _ _ _ hp

lemma ni_4b (cfg : Config) (env : Env) (mode iu host bf : String) (sr : List String)
    (tent : Option ModelResult) (d1 d2 : Debug) (ev : List Event)
    (hp : d1.playwright_fetch.isSome = d2.playwright_fetch.isSome) :
    (step4b_paths cfg env mode iu host bf sr tent d1 ev).1.model_result
      = (step4b_paths cfg env mode iu host bf sr tent d2 ev).1.model_result := by
  simp only [step4b_paths]
  split
  · split
    · exact ni_go4b _ _ _ _ _ _ _ _ _ _ _ hp
    · exact ni_5 _ _ _ _ _ _ _ _ _ _ hp
  · exact ni_5 _ _ _ _ _ _ _ _ _ _ hp

lemma ni_go4 (cfg : Config) (env : Env) (mode iu host bf : String) (sr : List String)
    (tent : Option ModelResult) (d1 d2 : Debug) (ev : List Event) (r : LoopOut)
    (hp : d1.playwright_fetch.isSome = d2.playwright_fetch.isSome) :
    (step4_go cfg env mode iu host bf sr tent d1 ev r).1.model_result
      = (step4_go cfg env mode iu host bf sr tent d2 ev r).1.model_result := by
  cases hq : r.result with
  | some mr => simp only [step4_go, hq]
  | none =>
    simp only [step4_go, hq]
    exact ni_4b _ _ _ _ _ _ _ _ _ _ _ hp

lemma ni_4 (cfg : Config) (env : Env) (mode iu host bf bh : String) (sr : List String)
    (tent : Option ModelResult) (d1 d2 : Debug) (ev : List Event)
    (hp : d1.playwright_fetch.isSome = d2.playwright_fetch.isSome) :
    (step4_links cfg env mode iu host bf bh sr tent d1 ev).1.model_result
      = (step4_links cfg env mode iu host bf bh sr tent d2 ev).1.model_result := by
  simp only [step4_links]
  exact ni_go4 _ _ _ _ _ _ _ _ _ _ _ _ hp

lemma ni_3b (cfg : Config) (env : Env) (mode iu host bf bh : String) (sr : List String)
    (fp0 : FingerprintResult) (tent : Option ModelResult) (d1 d2 : Debug) (ev : List Event)
    (hp : d1.playwright_fetch.isSome = d2.playwright_fetch.isSome) :
    (step3b_wc cfg env mode iu host bf bh sr fp0 tent d1 ev).1.model_result
      = (step3b_wc cfg env mode iu host bf bh sr fp0 tent d2 ev).1.model_result := by
  simp only [step3b_wc]
  split
  · split
    · rfl
    · exact ni_4 _ _ _ _ _ _ _ _ _ _ _ _ hp
  · exact ni_4 _ _ _ _ _ _ _ _ _ _ _ _ hp

lemma ni_3 (cfg : Config) (env : Env) (mode iu host bf : String) (bs : Option Int)
    (bh berr : String) (sr : List String) (d1 d2 : Debug) (ev : List Event)
    (hs : d1.sticky = d2.sticky)
    (hp : d1.playwright_fetch.isSome = d2.playwright_fetch.isSome) :
    (step3_fingerprint cfg env mode iu host bf bs bh berr sr d1 ev).1.model_result
      = (step3_fingerprint cfg env mode iu host bf bs bh berr sr d2 ev).1.model_result := by
  simp only [step3_fingerprint]
  rw [hs]
  split
  · split
    · rfl
    · exact ni_3b _ _ _ _ _ _ _ _ _ _ _ _ _ hp
  · split
    · rfl
    · exact ni_3b _ _ _ _ _ _ _ _ _ _ _ _ _ hp

lemma ni_2c (cfg : Config) (env : Env) (mode iu host bf : String) (bs : Option Int)
    (bh : String) (bhdrs : List (String × String)) (berr : String) (sr : List String)
    (d1 d2 : Debug) (ev : List Event)
    (hs : d1.sticky = d2.sticky)
    (hp : d1.playwright_fetch.isSome = d2.playwright_fetch.isSome) :
    (step2c_headers cfg env mode iu host bf bs bh bhdrs berr sr d1 ev).1.model_result
      = (step2c_headers cfg env mode iu host bf bs bh bhdrs berr sr d2 ev).1.model_result := by
  simp only [step2c_headers]
  split
  · rfl
  · split
    · rfl
    · exact ni_3 _ _ _ _ _ _ _ _ _ _ _ _ _ hs hp

lemma ni_2b (cfg : Config) (env : Env) (mode iu host bf : String) (bs : Option Int)
    (bh : String) (bhdrs : List (String × String)) (berr : String) (sr : List String)
    (d1 d2 : Debug) (ev : List Event)
    (hs : d1.sticky = d2.sticky)
    (hp : d1.playwright_fetch.isSome = d2.playwright_fetch.isSome) :
    (step2b_pw_blocked cfg env mode iu host bf bs bh bhdrs berr sr d1 ev).1.model_result
      = (step2b_pw_blocked cfg env mode iu host bf bs bh bhdrs berr sr d2 ev).1.model_result := by
  simp only [step2b_pw_blocked]
  split
  · split
    · split
      · rfl
      · exact ni_2c _ _ _ _ _ _ _ _ _ _ _ _ _ _ hs rfl
    · exact ni_2c _ _ _ _ _ _ _ _ _ _ _ _ _ _ hs rfl
  · exact ni_2c _ _ _ _ _ _ _ _ _ _ _ _ _ _ hs hp

lemma ni_2 (cfg : Config) (env : Env) (mode iu host : String) (d1 d2 : Debug) (ev : List Event)
    (hs : d1.sticky = d2.sticky)
    (hp : d1.playwright_fetch.isSome = d2.playwright_fetch.isSome) :
    (step2_base_fetch cfg env mode iu host d1 ev).1.model_result
      = (step2_base_fetch cfg env mode iu host d2 ev).1.model_result := by
  simp only [step2_base_fetch]
  split
  · exact ni_2b _ _ _ _ _ _ _ _ _ _ _ _ _ _ rfl hp
  · exact ni_2b _ _ _ _ _ _ _ _ _ _ _ _ _ _ hs hp

lemma ni_1c (cfg : Config) (env : Env) (mode iu host : String) (d1 d2 : Debug) (ev : List Event)
    (hs : d1.sticky = d2.sticky)
    (hp : d1.playwright_fetch.isSome = d2.playwright_fetch.isSome) :
    (step1c_shopware_api cfg env mode iu host d1 ev).1.model_result
      = (step1c_shopware_api cfg env mode iu host d2 ev).1.model_result := by
  simp only [step1c_shopware_api]
  split
  · split
    · rfl
    · exact ni_2 _ _ _ _ _ _ _ _ hs hp
  · exact ni_2 _ _ _ _ _ _ _ _ hs hp

lemma ni_1b (cfg : Config) (env : Env) (mode iu host : String) (d1 d2 : Debug) (ev : List Event)
    (hs : d1.sticky = d2.sticky)
    (hp : d1.playwright_fetch.isSome = d2.playwright_fetch.isSome) :
    (step1b_cart_js cfg env mode iu host d1 ev).1.model_result
      = (step1b_cart_js cfg env mode iu host d2 ev).1.model_result := by
  simp only [step1b_cart_js]
  split
  · split
    · rfl
    · exact ni_1c _ _ _ _ _ _ _ _ hs hp
  · exact ni_1c _ _ _ _ _ _ _ _ hs hp

lemma ni_1 (cfg : Config) (env : Env) (mode iu host : String) (d1 d2 : Debug) (ev : List Event)
    (hs : d1.sticky = d2.sticky)
    (hp : d1.playwright_fetch.isSome = d2.playwright_fetch.isSome) :
    (step1_dns cfg env mode iu host d1 ev).1.model_result
      = (step1_dns cfg env mode iu host d2 ev).1.model_result := by
  simp only [step1_dns]
  split
  · rfl
  · exact ni_1b _ _ _ _ _ _ _ _ hs hp

/-- C8 counterexample: the recorded debug contents do influence the
model_result. A run of the cascade on a plain WordPress brochure homepage
with `cautious_on_sticky` and functional mode, starting from a debug
record whose sticky entry was already set, returns a different
model_result (shop_presence `unclear`) than the same run starting from the
source's fresh debug record (shop_presence `not_shop`): the tentative
`other` branch reads `debug["sticky"]["is_sticky"]` back. -/
theorem c8_counterexample_sticky_read :
    (detect_platform_local_aux cfgCautiousFunctional envWpBrochure "ex.example"
        debugWithStickyRecorded).1.model_result
      ≠ (detect_platform_local_aux cfgCautiousFunctional envWpBrochure "ex.example"
        {}).1.model_result := by
  decide

/-- C8 (amended): the model_result depends on the accumulated debug record
only through its sticky entry (read back by the tentative-`other` branch)
and through the presence of its playwright_fetch entry (read back by the
Playwright-on-unknown gate): two runs whose initial debug records agree on
those two components — whatever else was recorded — produce identical
model_results. -/
theorem c8_debug_noninterference_amended (cfg : Config) (env : Env) (url : String)
    (d1 d2 : Debug) (hs : d1.sticky = d2.sticky)
    (hp : d1.playwright_fetch.isSome = d2.playwright_fetch.isSome) :
    (detect_platform_local_aux cfg env url d1).1.model_result
      = (detect_platform_local_aux cfg env url d2).1.model_result := by
  simp only [detect_platform_local_aux]
  exact ni_1 _ _ _ _ _ _ _ _ hs hp

/-- C8 witness: two initial debug records that differ only in a recorded
DNS probe entry lead to the same model_result. -/
theorem c8_witness :
    (detect_platform_local_aux {} envDnsHit "www.x.example"
        { dns_shopify := some ⟨ "w", "c", "" ⟩ }).1.model_result
      = (detect_platform_local_aux {} envDnsHit "www.x.example" {}).1.model_result :=
  c8_debug_noninterference_amended {} envDnsHit "www.x.example"
    { dns_shopify := some ⟨ "w", "c", "" ⟩ } {} rfl rfl

end Shoptech
